import Mathlib

/-!
Shallow embedding of the entertainment-production pipeline
(models `src/models/*.py`, `src/generators/*.py`,
`src/workflow/entertainment_workflow.py`).

Python integers are modelled as `Int`; Python floor division `//` as
`Int.fdiv` (identical semantics for every sign); the floating-point
division used in the deviation checks is modelled exactly over `Rat`
(the thresholds 0.2 / 0.3 are exact rationals here, abstracting the
float rounding of the source, which never matters at the integer
magnitudes this program produces).  Python's `not s or not s.strip()`
emptiness test holds exactly when every character of `s` is
whitespace, which is how `strBlank` is defined.  File writes are
modelled by recording the `(artifact, path)` pairs that the
orchestrator would persist.
-/

/-- Python `not s or not s.strip()`: true iff every char is whitespace. -/
def strBlank (s : String) : Bool := s.data.all Char.isWhitespace

/-- Python substring test `needle in hay` on strings. -/
def strContains (hay needle : String) : Bool :=
  decide (needle.data <:+: hay.data)

/-- Word accumulator for `pySplitWords` (structural recursion over the
character list, so it evaluates inside the kernel). -/
def splitWordsAux : List Char → List Char → List String
  | [], acc => if acc.isEmpty then [] else [String.mk acc.reverse]
  | c :: cs, acc =>
    if c.isWhitespace then
      (if acc.isEmpty then [] else [String.mk acc.reverse]) ++ splitWordsAux cs []
    else splitWordsAux cs (c :: acc)

/-- Python `s.split()` with no argument: split on whitespace runs, dropping empties. -/
def pySplitWords (s : String) : List String := splitWordsAux s.data []

/-- Python `s.lower()` (structural, so it evaluates inside the kernel;
identical to `String.toLower` on the ASCII text this program handles). -/
def pyLower (s : String) : String := String.mk (s.data.map Char.toLower)

/-- Python `s.upper()`. -/
def pyUpper (s : String) : String := String.mk (s.data.map Char.toUpper)

/-- Python `s.title()` for the single lowercase words it is applied to in the
source ("hook", "development", "resolution"): first character upper-cased. -/
def pyTitle (s : String) : String :=
  match s.data with
  | [] => ""
  | c :: cs => String.mk (c.toUpper :: cs)

/-- Python floor division `//`. -/
def pyFloorDiv (a b : Int) : Int := Int.fdiv a b

/-- Recursion worker for `pySetList`: `seen` holds the elements already kept. -/
def pySetListAux {α : Type} [DecidableEq α] (seen : List α) : List α → List α
  | [] => []
  | x :: xs =>
    if seen.contains x then pySetListAux seen xs
    else x :: pySetListAux (x :: seen) xs

/-- Python `list(set(l))`, modelled as duplicate removal keeping first
occurrences (CPython's set iteration order is unspecified; every
property proved below depends only on the underlying set of elements). -/
def pySetList {α : Type} [DecidableEq α] (l : List α) : List α := pySetListAux [] l

/-- Python `sorted` on integers (insertion sort; order is total so
stability is irrelevant). -/
def insertSorted (x : Int) : List Int → List Int
  | [] => [x]
  | y :: ys => if x ≤ y then x :: y :: ys else y :: insertSorted x ys

/-- Python `sorted` on a list of integers. -/
def pySorted : List Int → List Int
  | [] => []
  | x :: xs => insertSorted x (pySorted xs)

/-- Python `list(range(1, n + 1))` as a list of integers. -/
def seqFrom (k : Int) : Nat → List Int
  | 0 => []
  | n + 1 => k :: seqFrom (k + 1) n

/-- Comma-separated rendering of a list of strings (recursion mirrors what
`", ".join` produces). -/
def commaJoin : List String → String
  | [] => ""
  | [x] => x
  | x :: xs => x ++ ", " ++ commaJoin xs

/-- Python repr of a list of ints, e.g. `[2, 3]` (used in issue messages). -/
def pyIntListRepr (l : List Int) : String :=
  "[" ++ commaJoin (l.map toString) ++ "]"

/-- Exact-rational model of `abs(total - target) / target` from the source's
deviation checks. -/
def pyDeviation (total target : Int) : Rat :=
  |(total : Rat) - (target : Rat)| / (target : Rat)

/-- models/script.py: `Platform` enum. -/
inductive Platform where
  | TIKTOK
  | KUAISHOU
  | YOUTUBE_SHORTS
  | INSTAGRAM_REELS
deriving DecidableEq, Repr

/-- models/script.py: `Platform.value`. -/
def Platform.value : Platform → String
  | .TIKTOK => "tiktok"
  | .KUAISHOU => "kuaishou"
  | .YOUTUBE_SHORTS => "youtube_shorts"
  | .INSTAGRAM_REELS => "instagram_reels"

/-- models/script.py: `Platform(value)` constructor lookup (raises on bad input). -/
def Platform.fromValue : String → Option Platform
  | "tiktok" => some .TIKTOK
  | "kuaishou" => some .KUAISHOU
  | "youtube_shorts" => some .YOUTUBE_SHORTS
  | "instagram_reels" => some .INSTAGRAM_REELS
  | _ => none

/-- models/script.py: `Dialogue` dataclass. -/
structure Dialogue where
  character : String
  text : String
  action : Option String := none
deriving DecidableEq, Repr

/-- models/script.py: `Dialogue.validate`. -/
def Dialogue.validate (d : Dialogue) : Bool × Option String :=
  if strBlank d.character then (false, some "Character name cannot be empty")
  else if strBlank d.text then (false, some "Dialogue text cannot be empty")
  else if d.text.length > 500 then (false, some "Dialogue text too long (max 500 characters)")
  else (true, none)

/-- models/script.py: `Character` dataclass. -/
structure Character where
  name : String
  description : Option String := none
  age_range : Option String := none
deriving DecidableEq, Repr

/-- models/script.py: `Character.validate`. -/
def Character.validate (c : Character) : Bool × Option String :=
  if strBlank c.name then (false, some "Character name cannot be empty")
  else (true, none)

/-- models/script.py: `Scene` dataclass. -/
structure Scene where
  scene_number : Int
  location : String
  time_of_day : String
  interior_exterior : String
  description : String
  dialogues : List Dialogue := []
  estimated_duration_seconds : Option Int := none
  is_hook : Bool := false
deriving DecidableEq, Repr

/-- models/script.py: the dialogue-validation loop inside `Scene.validate`,
returning the first error (prefixed with the scene number) if any. -/
def Scene.dialoguesError (n : Int) : List Dialogue → Option String
  | [] => none
  | d :: ds =>
    match d.validate with
    | (true, _) => Scene.dialoguesError n ds
    | (false, e) => some ("Scene " ++ toString n ++ ": " ++ e.getD "")

/-- models/script.py: `Scene.validate`. -/
def Scene.validate (sc : Scene) : Bool × Option String :=
  if sc.scene_number < 1 then (false, some "Scene number must be positive")
  else if strBlank sc.location then (false, some "Location cannot be empty")
  else if !(["DAY", "NIGHT", "DAWN", "DUSK"].contains sc.time_of_day) then
    (false, some ("Invalid time_of_day: " ++ sc.time_of_day))
  else if !(["INT", "EXT"].contains sc.interior_exterior) then
    (false, some ("Invalid interior_exterior: " ++ sc.interior_exterior))
  else
    match Scene.dialoguesError sc.scene_number sc.dialogues with
    | some e => (false, some e)
    | none => (true, none)

/-- models/script.py: `CostFlag` dataclass. -/
structure CostFlag where
  element_type : String
  description : String
  estimated_complexity : String
deriving DecidableEq, Repr

/-- models/script.py: `Script` dataclass. -/
structure Script where
  title : String
  genre : String
  platform : Platform
  target_duration_seconds : Int
  target_audience : String
  characters : List Character := []
  scenes : List Scene := []
  cost_flags : List CostFlag := []
deriving DecidableEq, Repr

/-- models/script.py: the character-validation loop inside `Script.validate`. -/
def Script.charactersError : List Character → Option String
  | [] => none
  | c :: cs =>
    match c.validate with
    | (true, _) => Script.charactersError cs
    | (false, e) => some (e.getD "")

/-- models/script.py: the scene-validation loop inside `Script.validate`. -/
def Script.scenesError : List Scene → Option String
  | [] => none
  | sc :: scs =>
    match sc.validate with
    | (true, _) => Script.scenesError scs
    | (false, e) => some (e.getD "")

/-- models/script.py: the dialogue-speaker membership loop inside
`Script.validate` (speaker must be a declared character). -/
def Script.dialogueCharsError (names : List String) : List Scene → Option String
  | [] => none
  | sc :: scs =>
    match (sc.dialogues.find? (fun d => !names.contains d.character)) with
    | some d =>
      some ("Character '" ++ d.character ++ "' in scene " ++ toString sc.scene_number ++
        " not in character list")
    | none => Script.dialogueCharsError names scs

/-- models/script.py: `Script.validate`. -/
def Script.validate (s : Script) : Bool × Option String :=
  if strBlank s.title then (false, some "Title cannot be empty")
  else if strBlank s.genre then (false, some "Genre cannot be empty")
  else if !(30 ≤ s.target_duration_seconds ∧ s.target_duration_seconds ≤ 120) then
    (false, some "Target duration must be between 30-120 seconds")
  else if strBlank s.target_audience then (false, some "Target audience cannot be empty")
  else if s.scenes.isEmpty then (false, some "Script must have at least one scene")
  else if !(s.scenes.take 2).any (fun sc => sc.is_hook) then
    (false, some "Script must have a hook in the first scene")
  else
    match Script.charactersError s.characters with
    | some e => (false, some e)
    | none =>
      match Script.scenesError s.scenes with
      | some e => (false, some e)
      | none =>
        match Script.dialogueCharsError (s.characters.map Character.name) s.scenes with
        | some e => (false, some e)
        | none => (true, none)

/-- generators/script_generator.py: `ScriptGenerator._generate_characters`. -/
def ScriptGenerator.generate_characters (genre _target_audience : String) : List Character :=
  let genre_lower := pyLower genre
  if strContains genre_lower "romantic" && strContains genre_lower "comedy" then
    [{ name := "Maya", description := some "Barista with a secret talent", age_range := some "22-28" },
     { name := "Alex", description := some "Regular customer, tech startup founder", age_range := some "25-30" }]
  else if strContains genre_lower "comedy" then
    [{ name := "Jordan", description := some "Optimistic dreamer", age_range := some "20-28" },
     { name := "Sam", description := some "Sarcastic best friend", age_range := some "20-28" }]
  else if strContains genre_lower "drama" then
    [{ name := "Elena", description := some "Determined protagonist", age_range := some "25-35" },
     { name := "Marcus", description := some "Mysterious stranger", age_range := some "30-40" }]
  else if strContains genre_lower "horror" || strContains genre_lower "thriller" then
    [{ name := "Riley", description := some "Skeptical investigator", age_range := some "25-32" }]
  else
    [{ name := "Taylor", description := some "Relatable protagonist", age_range := some "22-30" }]

/-- generators/script_generator.py: the per-genre scene-description table of
`_get_scene_description`, in source (dict insertion) order. -/
def sceneDescriptionTable : List (String × List (String × String)) :=
  [("romantic comedy",
    [("hook", "The moment everything shifts - a simple mistake becomes a catalyst"),
     ("development", "Vulnerability surfaces through nervous explanation, walls coming down"),
     ("resolution", "Mutual recognition - what seemed wrong was exactly right")]),
   ("comedy",
    [("hook", "Disaster strikes in the most mundane moment - chaos begins"),
     ("development", "Attempting damage control while digging deeper into absurdity"),
     ("resolution", "Acceptance of chaos, finding humor in the wreckage")]),
   ("drama",
    [("hook", "The past collides with present - no more running"),
     ("development", "Truth emerges after years of silence, courage to speak"),
     ("resolution", "Catharsis - the weight of unspoken words finally lifted")]),
   ("horror",
    [("hook", "Something's wrong - instinct screams danger"),
     ("development", "Dread builds, rational mind fights primal fear"),
     ("resolution", "Confrontation with the unknown, survival instinct takes over")]),
   ("thriller",
    [("hook", "The first crack in normalcy - something's off"),
     ("development", "Paranoia or perception? Trust erodes"),
     ("resolution", "Truth revealed, reality shifts permanently")])]

/-- generators/script_generator.py: the default description dict of
`_get_scene_description`. -/
def defaultSceneDescriptions : List (String × String) :=
  [("hook", "Opening moment - immediate engagement"),
   ("development", "Story deepens, stakes rise"),
   ("resolution", "Emotional payoff, transformation complete")]

/-- generators/script_generator.py: `ScriptGenerator._get_scene_description`
(first table key that is a substring of the genre wins, with fallbacks). -/
def ScriptGenerator.get_scene_description (genre scene_type : String) : String :=
  match sceneDescriptionTable.find? (fun kv => strContains genre kv.1) with
  | some kv => (kv.2.lookup scene_type).getD "Scene unfolds"
  | none => (defaultSceneDescriptions.lookup scene_type).getD "Scene unfolds"

/-- generators/script_generator.py: `ScriptGenerator._generate_hook`
(returns dialogue text and action; the character argument is unused). -/
def ScriptGenerator.generate_hook (genre _character : String) : String × String :=
  if strContains genre "romantic" && strContains genre "comedy" then
    ("Wait, you ordered a what?!", "freezes mid-pour, eyes wide with genuine surprise")
  else if strContains genre "comedy" then
    ("This is NOT how I planned my morning.", "stares at chaos, deadpan delivery")
  else if strContains genre "drama" then
    ("I can't believe you're actually here.", "voice cracks slightly, frozen in doorway")
  else if strContains genre "horror" || strContains genre "thriller" then
    ("Did you hear that?", "stops dead, breath held, listening intently")
  else
    ("Everything changes right now.", "locks eyes with camera, jaw set")

/-- generators/script_generator.py: `ScriptGenerator._generate_development`. -/
def ScriptGenerator.generate_development (genre _char1 : String) (_char2 : Option String) :
    String × String :=
  if strContains genre "romantic" && strContains genre "comedy" then
    ("You've been ordering the same drink for three months. I thought I'd surprise you.",
     "nervous laugh, fidgets with cup sleeve, can't quite meet their eyes")
  else if strContains genre "comedy" then
    ("Okay, so maybe I should have read the instructions first.",
     "awkward laugh that trails off, realizes the magnitude")
  else if strContains genre "drama" then
    ("I've been trying to find the right words for weeks.",
     "takes a shaky breath, steps closer with purpose")
  else
    ("There's something I need to tell you.", "steadies voice, gathering courage")

/-- generators/script_generator.py: `ScriptGenerator._generate_resolution`. -/
def ScriptGenerator.generate_resolution (genre _char1 : String) (_char2 : Option String) :
    String × String :=
  if strContains genre "romantic" && strContains genre "comedy" then
    ("Best wrong order ever.", "genuine smile breaks through, eyes soften with warmth")
  else if strContains genre "comedy" then
    ("Well, at least it's a good story now.", "laughs genuinely, tension releases")
  else if strContains genre "drama" then
    ("I'm glad I finally said it.", "exhales deeply, shoulders drop, relieved smile")
  else
    ("And that's how everything changed.", "looks directly at camera, knowing smile")

/-- generators/script_generator.py: `ScriptGenerator._get_location_for_genre`. -/
def ScriptGenerator.get_location_for_genre (genre scene_type : String) : String :=
  if strContains genre "romantic" && strContains genre "comedy" then
    ((([("hook", "Coffee Shop - Counter"),
        ("development", "Coffee Shop - Corner Table"),
        ("resolution", "Coffee Shop - Window Seat")] : List (String × String)).lookup
        scene_type).getD "Coffee Shop")
  else if strContains genre "comedy" then
    ((([("hook", "Apartment - Kitchen"),
        ("development", "Apartment - Living Room"),
        ("resolution", "Apartment - Balcony")] : List (String × String)).lookup
        scene_type).getD "Apartment")
  else if strContains genre "drama" then
    ((([("hook", "Train Station Platform"),
        ("development", "Train Station Bench"),
        ("resolution", "Train Station Exit")] : List (String × String)).lookup
        scene_type).getD "Station")
  else
    "Location - " ++ pyTitle scene_type

/-- generators/script_generator.py: `ScriptGenerator._generate_scenes`. -/
def ScriptGenerator.generate_scenes (genre : String) (target_duration : Int)
    (characters : List Character) (_concept : Option String) : List Scene :=
  let genre_lower := pyLower genre
  let char1 := match characters with
    | c :: _ => c.name
    | [] => "Character"
  let char2 : Option String := match characters with
    | _ :: c :: _ => some c.name
    | _ => none
  let hd := ScriptGenerator.generate_hook genre_lower char1
  let hook_scene : Scene :=
    { scene_number := 1,
      location := ScriptGenerator.get_location_for_genre genre_lower "hook",
      time_of_day := "DAY",
      interior_exterior := "INT",
      description := ScriptGenerator.get_scene_description genre_lower "hook",
      dialogues := [{ character := char1, text := hd.1, action := some hd.2 }],
      estimated_duration_seconds := some 5,
      is_hook := true }
  let remaining_duration := target_duration - 5
  if target_duration ≥ 45 then
    let dev_duration := pyFloorDiv remaining_duration 2
    let dd := ScriptGenerator.generate_development genre_lower char1 char2
    let dev_scene : Scene :=
      { scene_number := 2,
        location := ScriptGenerator.get_location_for_genre genre_lower "development",
        time_of_day := "DAY",
        interior_exterior := "INT",
        description := ScriptGenerator.get_scene_description genre_lower "development",
        dialogues := [{ character := char1, text := dd.1, action := some dd.2 }],
        estimated_duration_seconds := some dev_duration,
        is_hook := false }
    let rd := ScriptGenerator.generate_resolution genre_lower char1 char2
    let resolution_scene : Scene :=
      { scene_number := 3,
        location := ScriptGenerator.get_location_for_genre genre_lower "resolution",
        time_of_day := "DAY",
        interior_exterior := "INT",
        description := ScriptGenerator.get_scene_description genre_lower "resolution",
        dialogues := [{ character := char1, text := rd.1, action := some rd.2 }],
        estimated_duration_seconds := some (remaining_duration - dev_duration),
        is_hook := false }
    [hook_scene, dev_scene, resolution_scene]
  else
    let rd := ScriptGenerator.generate_resolution genre_lower char1 char2
    let resolution_scene : Scene :=
      { scene_number := 2,
        location := ScriptGenerator.get_location_for_genre genre_lower "resolution",
        time_of_day := "DAY",
        interior_exterior := "INT",
        description := ScriptGenerator.get_scene_description genre_lower "resolution",
        dialogues := [{ character := char1, text := rd.1, action := some rd.2 }],
        estimated_duration_seconds := some remaining_duration,
        is_hook := false }
    [hook_scene, resolution_scene]

/-- generators/script_generator.py: `ScriptGenerator._identify_cost_flags`. -/
def ScriptGenerator.identify_cost_flags (scenes : List Scene) : List CostFlag :=
  scenes.flatMap (fun scene =>
    (if scene.time_of_day = "NIGHT" then
      [{ element_type := "night_scene",
         description := "Scene " ++ toString scene.scene_number ++
           ": Night shooting requires additional lighting",
         estimated_complexity := "MEDIUM" }]
     else []) ++
    (if scene.interior_exterior = "EXT" then
      [{ element_type := "location",
         description := "Scene " ++ toString scene.scene_number ++
           ": Exterior location may require permits",
         estimated_complexity := "LOW" }]
     else []) ++
    (if scene.dialogues.length > 3 then
      [{ element_type := "extras",
         description := "Scene " ++ toString scene.scene_number ++
           ": Multiple speaking characters increase complexity",
         estimated_complexity := "MEDIUM" }]
     else []))

/-- generators/script_generator.py: `ScriptGenerator.generate`. -/
def ScriptGenerator.generate (title genre : String) (platform : Platform)
    (target_duration_seconds : Int) (target_audience : String)
    (concept : Option String := none) : Script :=
  let characters := ScriptGenerator.generate_characters genre target_audience
  let scenes := ScriptGenerator.generate_scenes genre target_duration_seconds characters concept
  let cost_flags := ScriptGenerator.identify_cost_flags scenes
  { title := title,
    genre := genre,
    platform := platform,
    target_duration_seconds := target_duration_seconds,
    target_audience := target_audience,
    characters := characters,
    scenes := scenes,
    cost_flags := cost_flags }

/-- generators/script_generator.py: the per-dialogue word-count loop of
`ScriptValidator.validate_for_production` (issues in scene/dialogue order). -/
def ScriptValidator.dialogueLengthIssues (scenes : List Scene) : List String :=
  scenes.flatMap (fun scene =>
    scene.dialogues.filterMap (fun dialogue =>
      if (pySplitWords dialogue.text).length > 50 then
        some ("Scene " ++ toString scene.scene_number ++ ": Dialogue too long for " ++
          dialogue.character ++ " (>50 words may not be conversational)")
      else none))

/-- generators/script_generator.py: `sum(scene.estimated_duration_seconds or 0 ...)`. -/
def ScriptValidator.totalEstimatedDuration (scenes : List Scene) : Int :=
  (scenes.map (fun scene => scene.estimated_duration_seconds.getD 0)).sum

/-- generators/script_generator.py: the aggregate-duration check of
`ScriptValidator.validate_for_production` (only runs when the total is positive). -/
def ScriptValidator.durationIssues (s : Script) : List String :=
  let total := ScriptValidator.totalEstimatedDuration s.scenes
  if total > 0 then
    if pyDeviation total s.target_duration_seconds > (0.3 : Rat) then
      ["Total estimated duration (" ++ toString total ++ "s) deviates significantly " ++
        "from target (" ++ toString s.target_duration_seconds ++ "s)"]
    else []
  else []

/-- generators/script_generator.py: `ScriptValidator.validate_for_production`. -/
def ScriptValidator.validate_for_production (script : Script) : Bool × List String :=
  match script.validate with
  | (false, e) => (false, [e.getD ""])
  | (true, _) =>
    let issues := ScriptValidator.dialogueLengthIssues script.scenes ++
      ScriptValidator.durationIssues script
    (issues.isEmpty, issues)

/-- models/breakdown.py: `LocationType` enum. -/
inductive LocationType where
  | INTERIOR
  | EXTERIOR
deriving DecidableEq, Repr

/-- models/breakdown.py: `LocationType.value`. -/
def LocationType.value : LocationType → String
  | .INTERIOR => "INT"
  | .EXTERIOR => "EXT"

/-- models/breakdown.py: `LocationType(value)` (raises on bad input). -/
def LocationType.fromValue : String → Option LocationType
  | "INT" => some .INTERIOR
  | "EXT" => some .EXTERIOR
  | _ => none

/-- models/breakdown.py: `TimeOfDay` enum. -/
inductive TimeOfDay where
  | DAY
  | NIGHT
  | DAWN
  | DUSK
deriving DecidableEq, Repr

/-- models/breakdown.py: `TimeOfDay.value`. -/
def TimeOfDay.value : TimeOfDay → String
  | .DAY => "DAY"
  | .NIGHT => "NIGHT"
  | .DAWN => "DAWN"
  | .DUSK => "DUSK"

/-- models/breakdown.py: `TimeOfDay(value)` (raises on bad input). -/
def TimeOfDay.fromValue : String → Option TimeOfDay
  | "DAY" => some .DAY
  | "NIGHT" => some .NIGHT
  | "DAWN" => some .DAWN
  | "DUSK" => some .DUSK
  | _ => none

/-- models/breakdown.py: `ProductionElement` dataclass. -/
structure ProductionElement where
  element_type : String
  description : String
  quantity : Int := 1
  notes : Option String := none
deriving DecidableEq, Repr

/-- models/breakdown.py: `BreakdownEntry` dataclass. -/
structure BreakdownEntry where
  scene_number : Int
  scene_description : String
  location : String
  location_type : LocationType
  time_of_day : TimeOfDay
  characters : List String := []
  props : List ProductionElement := []
  wardrobe : List ProductionElement := []
  makeup : List ProductionElement := []
  special_requirements : List ProductionElement := []
  estimated_setup_time_minutes : Option Int := none
deriving DecidableEq, Repr

/-- models/breakdown.py: `BreakdownEntry.validate`. -/
def BreakdownEntry.validate (e : BreakdownEntry) : Bool × Option String :=
  if e.scene_number < 1 then (false, some "Scene number must be positive")
  else if strBlank e.location then (false, some "Location cannot be empty")
  else if strBlank e.scene_description then (false, some "Scene description cannot be empty")
  else if e.characters.isEmpty then
    (false, some ("Scene " ++ toString e.scene_number ++ " must have at least one character"))
  else (true, none)

/-- models/breakdown.py: `Breakdown` dataclass. -/
structure Breakdown where
  script_title : String
  entries : List BreakdownEntry := []
deriving DecidableEq, Repr

/-- models/breakdown.py: the entry-validation loop inside `Breakdown.validate`. -/
def Breakdown.entriesError : List BreakdownEntry → Option String
  | [] => none
  | e :: es =>
    match e.validate with
    | (true, _) => Breakdown.entriesError es
    | (false, err) => some (err.getD "")

/-- models/breakdown.py: `Breakdown.validate`. -/
def Breakdown.validate (b : Breakdown) : Bool × Option String :=
  if strBlank b.script_title then (false, some "Script title cannot be empty")
  else if b.entries.isEmpty then (false, some "Breakdown must have at least one entry")
  else
    match Breakdown.entriesError b.entries with
    | some e => (false, some e)
    | none =>
      let scene_numbers := b.entries.map BreakdownEntry.scene_number
      if scene_numbers.length ≠ (pySetList scene_numbers).length then
        (false, some "Duplicate scene numbers found in breakdown")
      else if pySorted scene_numbers ≠ seqFrom 1 scene_numbers.length then
        (false, some "Scene numbers must be sequential starting from 1")
      else (true, none)

/-- generators/breakdown_generator.py: `BreakdownGenerator._extract_props`
(description keywords first, then the dialogue scan for "drink"). -/
def BreakdownGenerator.descriptionProps (scene : Scene) : List ProductionElement :=
  let description_lower := pyLower scene.description
  (if strContains description_lower "phone" || strContains description_lower "mobile" then
    [{ element_type := "prop", description := "Mobile phone", quantity := 1 }] else []) ++
  (if strContains description_lower "coffee" || strContains description_lower "cup" then
    [{ element_type := "prop", description := "Coffee cup", quantity := 1 }] else []) ++
  (if strContains description_lower "table" then
    [{ element_type := "prop", description := "Table", quantity := 1 }] else []) ++
  (if strContains description_lower "chair" then
    [{ element_type := "prop", description := "Chair", quantity := 2 }] else []) ++
  (if strContains description_lower "car" || strContains description_lower "vehicle" then
    [{ element_type := "prop", description := "Vehicle", quantity := 1,
       notes := some "Requires driver/permit" }] else [])

/-- generators/breakdown_generator.py: the dialogue loop of `_extract_props`
(adds a "Beverage" per "drink" mention unless a "Coffee cup" prop is present). -/
def BreakdownGenerator.addBeverages (props : List ProductionElement) :
    List Dialogue → List ProductionElement
  | [] => props
  | d :: ds =>
    let props' :=
      if strContains (pyLower d.text) "drink" &&
          !(props.any (fun p => p.description == "Coffee cup")) then
        props ++ [{ element_type := "prop", description := "Beverage", quantity := 1 }]
      else props
    BreakdownGenerator.addBeverages props' ds

/-- generators/breakdown_generator.py: `BreakdownGenerator._extract_props`. -/
def BreakdownGenerator.extract_props (scene : Scene) : List ProductionElement :=
  BreakdownGenerator.addBeverages (BreakdownGenerator.descriptionProps scene) scene.dialogues

/-- generators/breakdown_generator.py: `BreakdownGenerator._extract_wardrobe`. -/
def BreakdownGenerator.extract_wardrobe (scene : Scene) (characters : List String) :
    List ProductionElement :=
  let base := characters.map (fun character =>
    ({ element_type := "wardrobe", description := character ++ " costume", quantity := 1,
       notes := some "Character-appropriate attire" } : ProductionElement))
  let description_lower := pyLower scene.description
  base ++
  (if strContains description_lower "formal" || strContains description_lower "suit" then
    [{ element_type := "wardrobe", description := "Formal attire", quantity := 1 }] else []) ++
  (if strContains description_lower "uniform" then
    [{ element_type := "wardrobe", description := "Uniform", quantity := 1 }] else [])

/-- generators/breakdown_generator.py: `BreakdownGenerator._extract_makeup`. -/
def BreakdownGenerator.extract_makeup (scene : Scene) : List ProductionElement :=
  let description_lower := pyLower scene.description
  [{ element_type := "makeup", description := "Basic makeup", quantity := 1,
     notes := some "For all characters" }] ++
  (if strContains description_lower "blood" || strContains description_lower "injury" then
    [{ element_type := "makeup", description := "Special effects makeup", quantity := 1,
       notes := some "Injury/blood effects" }] else []) ++
  (if strContains description_lower "age" || strContains description_lower "old" then
    [{ element_type := "makeup", description := "Aging makeup", quantity := 1 }] else [])

/-- generators/breakdown_generator.py: `BreakdownGenerator._extract_special_requirements`. -/
def BreakdownGenerator.extract_special_requirements (scene : Scene) : List ProductionElement :=
  let dl := pyLower scene.description
  (if strContains dl "stunt" || strContains dl "fight" then
    [{ element_type := "sfx", description := "Stunt coordinator", quantity := 1,
       notes := some "Safety required" }] else []) ++
  (if strContains dl "explosion" || strContains dl "fire" then
    [{ element_type := "sfx", description := "Pyrotechnics", quantity := 1,
       notes := some "Permit and safety officer required" }] else []) ++
  (if strContains dl "rain" || strContains dl "water" then
    [{ element_type := "sfx", description := "Water effects", quantity := 1 }] else []) ++
  (if strContains dl "animal" || strContains dl "dog" || strContains dl "cat" then
    [{ element_type := "sfx", description := "Animal wrangler", quantity := 1,
       notes := some "Trained animals required" }] else []) ++
  (if strContains dl "vfx" || strContains dl "cgi" || strContains dl "green screen" then
    [{ element_type := "sfx", description := "Visual effects", quantity := 1,
       notes := some "Post-production VFX required" }] else [])

/-- generators/breakdown_generator.py: `BreakdownGenerator._estimate_setup_time`. -/
def BreakdownGenerator.estimate_setup_time (scene : Scene) : Int :=
  15 + (if scene.interior_exterior = "EXT" then 10 else 0) +
    (if scene.time_of_day = "NIGHT" then 20 else 0) +
    5 * ((pySetList (scene.dialogues.map Dialogue.character)).length : Int)

/-- generators/breakdown_generator.py: `BreakdownGenerator._create_breakdown_entry`
(the `LocationType`/`TimeOfDay` enum constructors raise `ValueError` on
unexpected strings, modelled as `Except`). -/
def BreakdownGenerator.create_breakdown_entry (scene : Scene) : Except String BreakdownEntry :=
  match LocationType.fromValue scene.interior_exterior,
      TimeOfDay.fromValue scene.time_of_day with
  | none, _ =>
    Except.error ("'" ++ scene.interior_exterior ++ "' is not a valid LocationType")
  | some _, none =>
    Except.error ("'" ++ scene.time_of_day ++ "' is not a valid TimeOfDay")
  | some location_type, some time_of_day =>
    let characters := pySetList (scene.dialogues.map Dialogue.character)
    Except.ok
      { scene_number := scene.scene_number,
        scene_description := scene.description,
        location := scene.location,
        location_type := location_type,
        time_of_day := time_of_day,
        characters := characters,
        props := BreakdownGenerator.extract_props scene,
        wardrobe := BreakdownGenerator.extract_wardrobe scene characters,
        makeup := BreakdownGenerator.extract_makeup scene,
        special_requirements := BreakdownGenerator.extract_special_requirements scene,
        estimated_setup_time_minutes := some (BreakdownGenerator.estimate_setup_time scene) }

/-- generators/breakdown_generator.py: the per-scene loop of
`BreakdownGenerator.generate` (the first raise propagates). -/
def BreakdownGenerator.generateEntries : List Scene → Except String (List BreakdownEntry)
  | [] => Except.ok []
  | scene :: scenes =>
    match BreakdownGenerator.create_breakdown_entry scene with
    | .error e => .error e
    | .ok entry =>
      match BreakdownGenerator.generateEntries scenes with
      | .error e => .error e
      | .ok entries => .ok (entry :: entries)

/-- generators/breakdown_generator.py: `BreakdownGenerator.generate`
(raises — `Except.error` — on an invalid input script). -/
def BreakdownGenerator.generate (script : Script) : Except String Breakdown :=
  match script.validate with
  | (false, e) => Except.error ("Invalid script: " ++ e.getD "")
  | (true, _) =>
    match BreakdownGenerator.generateEntries script.scenes with
    | .error e => .error e
    | .ok entries => Except.ok { script_title := script.title, entries := entries }

/-- generators/breakdown_generator.py: the character-membership loop of
`BreakdownValidator.validate_against_script`. -/
def BreakdownValidator.characterIssues (script_characters : List String)
    (entries : List BreakdownEntry) : List String :=
  entries.flatMap (fun entry =>
    entry.characters.filterMap (fun character =>
      if !(script_characters.contains character) then
        some ("Scene " ++ toString entry.scene_number ++ ": Character '" ++ character ++
          "' not in script character list")
      else none))

/-- generators/breakdown_generator.py: the critical-elements loop of
`BreakdownValidator.validate_against_script`. -/
def BreakdownValidator.criticalIssues (entries : List BreakdownEntry) : List String :=
  entries.flatMap (fun entry =>
    (if entry.characters.isEmpty then
      ["Scene " ++ toString entry.scene_number ++ ": No characters listed"] else []) ++
    (if entry.wardrobe.isEmpty then
      ["Scene " ++ toString entry.scene_number ++ ": No wardrobe elements listed"] else []))

/-- generators/breakdown_generator.py: `BreakdownValidator.validate_against_script`. -/
def BreakdownValidator.validate_against_script (breakdown : Breakdown) (script : Script) :
    Bool × List String :=
  match breakdown.validate with
  | (false, e) => (false, [e.getD ""])
  | (true, _) =>
    let countIssues :=
      if breakdown.entries.length ≠ script.scenes.length then
        ["Scene count mismatch: script has " ++ toString script.scenes.length ++
          " scenes, breakdown has " ++ toString breakdown.entries.length ++ " entries"]
      else []
    let script_scene_numbers := pySetList (script.scenes.map Scene.scene_number)
    let breakdown_scene_numbers := pySetList (breakdown.entries.map BreakdownEntry.scene_number)
    let missing_scenes :=
      script_scene_numbers.filter (fun n => !(breakdown_scene_numbers.contains n))
    let missingIssues :=
      if !missing_scenes.isEmpty then
        ["Missing breakdown entries for scenes: " ++ pyIntListRepr (pySorted missing_scenes)]
      else []
    let extra_scenes :=
      breakdown_scene_numbers.filter (fun n => !(script_scene_numbers.contains n))
    let extraIssues :=
      if !extra_scenes.isEmpty then
        ["Extra breakdown entries for non-existent scenes: " ++
          pyIntListRepr (pySorted extra_scenes)]
      else []
    let issues := countIssues ++ missingIssues ++ extraIssues ++
      BreakdownValidator.characterIssues (script.characters.map Character.name)
        breakdown.entries ++
      BreakdownValidator.criticalIssues breakdown.entries
    (issues.isEmpty, issues)

/-- models/storyboard.py: `ShotSize` enum. -/
inductive ShotSize where
  | EXTREME_WIDE
  | WIDE
  | MEDIUM
  | CLOSE_UP
  | EXTREME_CLOSE_UP
deriving DecidableEq, Repr

/-- models/storyboard.py: `ShotSize.value`. -/
def ShotSize.value : ShotSize → String
  | .EXTREME_WIDE => "EWS"
  | .WIDE => "WS"
  | .MEDIUM => "MS"
  | .CLOSE_UP => "CU"
  | .EXTREME_CLOSE_UP => "ECU"

/-- models/storyboard.py: `ShotSize(value)` (raises on bad input). -/
def ShotSize.fromValue : String → Option ShotSize
  | "EWS" => some .EXTREME_WIDE
  | "WS" => some .WIDE
  | "MS" => some .MEDIUM
  | "CU" => some .CLOSE_UP
  | "ECU" => some .EXTREME_CLOSE_UP
  | _ => none

/-- models/storyboard.py: `CameraMovement` enum. -/
inductive CameraMovement where
  | STATIC
  | PAN
  | TILT
  | DOLLY
  | TRACKING
  | HANDHELD
  | CRANE
deriving DecidableEq, Repr

/-- models/storyboard.py: `CameraMovement.value`. -/
def CameraMovement.value : CameraMovement → String
  | .STATIC => "Static"
  | .PAN => "Pan"
  | .TILT => "Tilt"
  | .DOLLY => "Dolly"
  | .TRACKING => "Tracking"
  | .HANDHELD => "Handheld"
  | .CRANE => "Crane"

/-- models/storyboard.py: `CameraMovement(value)` (raises on bad input). -/
def CameraMovement.fromValue : String → Option CameraMovement
  | "Static" => some .STATIC
  | "Pan" => some .PAN
  | "Tilt" => some .TILT
  | "Dolly" => some .DOLLY
  | "Tracking" => some .TRACKING
  | "Handheld" => some .HANDHELD
  | "Crane" => some .CRANE
  | _ => none

/-- models/storyboard.py: `Shot` dataclass. -/
structure Shot where
  shot_id : String
  scene_number : Int
  shot_size : ShotSize
  camera_position : String
  camera_movement : CameraMovement
  visual_description : String
  suggested_duration_seconds : Int
  audio_notes : Option String := none
deriving DecidableEq, Repr

/-- models/storyboard.py: `Shot.validate`. -/
def Shot.validate (s : Shot) : Bool × Option String :=
  if strBlank s.shot_id then (false, some "Shot ID cannot be empty")
  else if s.scene_number < 1 then (false, some "Scene number must be positive")
  else if strBlank s.camera_position then (false, some "Camera position cannot be empty")
  else if strBlank s.visual_description then (false, some "Visual description cannot be empty")
  else if s.suggested_duration_seconds < 1 then
    (false, some "Duration must be at least 1 second")
  else (true, none)

/-- models/storyboard.py: `Storyboard` dataclass. -/
structure Storyboard where
  script_title : String
  target_duration_seconds : Int
  shots : List Shot := []
deriving DecidableEq, Repr

/-- models/storyboard.py: the shot-validation loop inside `Storyboard.validate`. -/
def Storyboard.shotsError : List Shot → Option String
  | [] => none
  | s :: ss =>
    match s.validate with
    | (true, _) => Storyboard.shotsError ss
    | (false, e) => some ("Shot " ++ s.shot_id ++ ": " ++ e.getD "")

/-- models/storyboard.py: `Storyboard.get_total_duration`. -/
def Storyboard.get_total_duration (sb : Storyboard) : Int :=
  (sb.shots.map Shot.suggested_duration_seconds).sum

/-- models/storyboard.py: `Storyboard.validate`. -/
def Storyboard.validate (sb : Storyboard) : Bool × Option String :=
  if strBlank sb.script_title then (false, some "Script title cannot be empty")
  else if sb.shots.isEmpty then (false, some "Storyboard must have at least one shot")
  else
    match Storyboard.shotsError sb.shots with
    | some e => (false, some e)
    | none =>
      let shot_ids := sb.shots.map Shot.shot_id
      if shot_ids.length ≠ (pySetList shot_ids).length then
        (false, some "Duplicate shot IDs found")
      else
        let total_duration := sb.get_total_duration
        if pyDeviation total_duration sb.target_duration_seconds > (0.2 : Rat) then
          (false, some ("Total duration (" ++ toString total_duration ++
            "s) deviates more than 20% from target (" ++
            toString sb.target_duration_seconds ++ "s)"))
        else (true, none)

/-- generators/storyboard_generator.py: `scene.estimated_duration_seconds or
(script.target_duration_seconds // len(script.scenes))` — Python `or`
falls through on `None` and on `0`. -/
def StoryboardGenerator.sceneDuration (scene : Scene) (script : Script) : Int :=
  match scene.estimated_duration_seconds with
  | some d =>
    if d = 0 then pyFloorDiv script.target_duration_seconds (script.scenes.length : Int) else d
  | none => pyFloorDiv script.target_duration_seconds (script.scenes.length : Int)

/-- generators/storyboard_generator.py: the dialogue-shot loop of the
non-hook branch of `_generate_shots_for_scene` (sizes alternate by index
parity, index 0 is MEDIUM). -/
def StoryboardGenerator.dialogueShots (scene : Scene) (genre_lower : String)
    (duration_per_shot : Int) : List Shot :=
  (List.range scene.dialogues.length).zip scene.dialogues |>.map (fun p =>
    let idx := p.1
    let dialogue := p.2
    let shot_letter := String.singleton (Char.ofNat (66 + idx))
    let sp : ShotSize × String :=
      if idx = 0 then (ShotSize.MEDIUM, "Medium shot, " ++ dialogue.character ++ " in frame")
      else if idx % 2 = 1 then
        (ShotSize.CLOSE_UP, "Close-up on " ++ dialogue.character ++ "'s expression")
      else (ShotSize.MEDIUM, "Over-shoulder or medium on " ++ dialogue.character)
    let timing_note :=
      if strContains genre_lower "comedy" then " - timing is key, hold for laugh"
      else if strContains genre_lower "drama" then " - let emotion breathe"
      else ""
    let action_desc := match dialogue.action with
      | some a => " - " ++ a
      | none => ""
    { shot_id := toString scene.scene_number ++ shot_letter,
      scene_number := scene.scene_number,
      shot_size := sp.1,
      camera_position := sp.2,
      camera_movement := CameraMovement.STATIC,
      visual_description :=
        dialogue.character ++ ": \"" ++ dialogue.text ++ "\"" ++ action_desc ++ timing_note,
      suggested_duration_seconds := duration_per_shot,
      audio_notes := some ("Dialogue: " ++ dialogue.character) })

/-- generators/storyboard_generator.py: `StoryboardGenerator._generate_shots_for_scene`. -/
def StoryboardGenerator.generate_shots_for_scene (scene : Scene) (script : Script) :
    List Shot :=
  let scene_duration := StoryboardGenerator.sceneDuration scene script
  let genre_lower := pyLower script.genre
  if scene.is_hook then
    if strContains genre_lower "comedy" then
      [({ shot_id := toString scene.scene_number ++ "A",
          scene_number := scene.scene_number,
          shot_size := ShotSize.MEDIUM,
          camera_position := "Eye level, centered on moment of chaos",
          camera_movement := CameraMovement.STATIC,
          visual_description := scene.location ++ ": " ++ scene.description ++
            ". Beat before disaster.",
          suggested_duration_seconds := 1 } : Shot)] ++
      (match scene.dialogues with
       | [] => []
       | dialogue :: _ =>
         [{ shot_id := toString scene.scene_number ++ "B",
            scene_number := scene.scene_number,
            shot_size := ShotSize.CLOSE_UP,
            camera_position := "Tight on " ++ dialogue.character ++ "'s face for comedic timing",
            camera_movement := CameraMovement.STATIC,
            visual_description := dialogue.character ++ ": \"" ++ dialogue.text ++ "\" - " ++
              (dialogue.action.getD "None") ++ ". Hold for reaction.",
            suggested_duration_seconds := 4,
            audio_notes := some ("Dialogue: " ++ dialogue.character) }])
    else if strContains genre_lower "drama" then
      [({ shot_id := toString scene.scene_number ++ "A",
          scene_number := scene.scene_number,
          shot_size := ShotSize.MEDIUM,
          camera_position := "Eye level, emotional distance closing",
          camera_movement := CameraMovement.STATIC,
          visual_description := scene.location ++ ": " ++ scene.description ++
            ". Tension builds.",
          suggested_duration_seconds := 2 } : Shot)] ++
      (match scene.dialogues with
       | [] => []
       | dialogue :: _ =>
         [{ shot_id := toString scene.scene_number ++ "B",
            scene_number := scene.scene_number,
            shot_size := ShotSize.CLOSE_UP,
            camera_position := "Close on " ++ dialogue.character ++ ", capturing vulnerability",
            camera_movement := CameraMovement.STATIC,
            visual_description := dialogue.character ++ ": \"" ++ dialogue.text ++ "\" - " ++
              (dialogue.action.getD "None") ++ ". Let emotion land.",
            suggested_duration_seconds := 3,
            audio_notes := some ("Dialogue: " ++ dialogue.character) }])
    else
      [({ shot_id := toString scene.scene_number ++ "A",
          scene_number := scene.scene_number,
          shot_size := ShotSize.MEDIUM,
          camera_position := "Eye level, centered on action",
          camera_movement := CameraMovement.STATIC,
          visual_description := scene.location ++ ": " ++ scene.description ++
            ". Immediate visual impact.",
          suggested_duration_seconds := 2 } : Shot)] ++
      (match scene.dialogues with
       | [] => []
       | dialogue :: _ =>
         [{ shot_id := toString scene.scene_number ++ "B",
            scene_number := scene.scene_number,
            shot_size := ShotSize.CLOSE_UP,
            camera_position := "Eye level, tight on " ++ dialogue.character ++ "'s face",
            camera_movement := CameraMovement.STATIC,
            visual_description := dialogue.character ++ " reacts: \"" ++ dialogue.text ++
              "\" - " ++ (dialogue.action.getD "None"),
            suggested_duration_seconds := scene_duration - 2,
            audio_notes := some ("Dialogue: " ++ dialogue.character) }])
  else
    let num_shots : Int := 1 + (scene.dialogues.length : Int)
    let duration_per_shot := max 2 (pyFloorDiv scene_duration num_shots)
    let camera_note :=
      if strContains genre_lower "comedy" then "Wide enough to capture physical comedy"
      else if strContains genre_lower "drama" then "Composed for emotional weight"
      else "showing " ++ scene.location ++ " context"
    let establishing : Shot :=
      { shot_id := toString scene.scene_number ++ "A",
        scene_number := scene.scene_number,
        shot_size := ShotSize.WIDE,
        camera_position := "Eye level, " ++ camera_note,
        camera_movement := CameraMovement.STATIC,
        visual_description := "Wide: " ++ scene.location ++ ". " ++ scene.description,
        suggested_duration_seconds := duration_per_shot }
    if !scene.dialogues.isEmpty then
      [establishing] ++ StoryboardGenerator.dialogueShots scene genre_lower duration_per_shot
    else
      [establishing,
       { shot_id := toString scene.scene_number ++ "B",
         scene_number := scene.scene_number,
         shot_size := ShotSize.MEDIUM,
         camera_position := "Eye level, following action",
         camera_movement := CameraMovement.STATIC,
         visual_description := "Action: " ++ scene.description,
         suggested_duration_seconds := scene_duration - duration_per_shot }]

/-- generators/storyboard_generator.py: `StoryboardGenerator.generate`
(raises — `Except.error` — if the script or the breakdown fails self-validation). -/
def StoryboardGenerator.generate (script : Script) (breakdown : Breakdown) :
    Except String Storyboard :=
  match script.validate with
  | (false, e) => Except.error ("Invalid script: " ++ e.getD "")
  | (true, _) =>
    match breakdown.validate with
    | (false, e) => Except.error ("Invalid breakdown: " ++ e.getD "")
    | (true, _) =>
      Except.ok
        { script_title := script.title,
          target_duration_seconds := script.target_duration_seconds,
          shots := script.scenes.flatMap
            (fun scene => StoryboardGenerator.generate_shots_for_scene scene script) }

/-- generators/storyboard_generator.py: the scene-existence loop of
`ContinuityChecker.check_continuity`. -/
def ContinuityChecker.sceneExistenceIssues (script_scene_numbers : List Int)
    (shots : List Shot) : List String :=
  shots.filterMap (fun shot =>
    if !(script_scene_numbers.contains shot.scene_number) then
      some ("Shot " ++ shot.shot_id ++ ": References non-existent scene " ++
        toString shot.scene_number)
    else none)

/-- generators/storyboard_generator.py: the consecutive-shot scan of
`ContinuityChecker.check_continuity` (`prev_shot` threaded through). -/
def ContinuityChecker.jumpCutScan (prev : Option Shot) : List Shot → List String
  | [] => []
  | shot :: rest =>
    (match prev with
     | some p =>
       if p.scene_number = shot.scene_number ∧ p.shot_size = shot.shot_size ∧
           p.camera_position = shot.camera_position then
         ["Shots " ++ p.shot_id ++ " and " ++ shot.shot_id ++
           ": Potential jump cut (same size and position)"]
       else []
     | none => []) ++ ContinuityChecker.jumpCutScan (some shot) rest

/-- generators/storyboard_generator.py: the coverage loop of
`ContinuityChecker.check_continuity` (per script scene: no shots, or fewer
than two). -/
def ContinuityChecker.coverageIssues (scenes : List Scene) (shots : List Shot) :
    List String :=
  scenes.flatMap (fun scene =>
    let count := shots.countP (fun shot => shot.scene_number == scene.scene_number)
    if count = 0 then
      ["Scene " ++ toString scene.scene_number ++ ": No shots defined"]
    else if count < 2 then
      ["Scene " ++ toString scene.scene_number ++ ": Insufficient coverage (only 1 shot)"]
    else [])

/-- generators/storyboard_generator.py: the duration-tolerance check of
`ContinuityChecker.check_continuity` (the percentage in the message is the
deviation rendered as a rational, abstracting Python's `:.1f` float
formatting). -/
def ContinuityChecker.durationIssues (sb : Storyboard) : List String :=
  let total_duration := sb.get_total_duration
  let deviation := pyDeviation total_duration sb.target_duration_seconds
  if deviation > (0.2 : Rat) then
    ["Total duration (" ++ toString total_duration ++ "s) deviates " ++
      toString (deviation * 100) ++ "% from target (" ++
      toString sb.target_duration_seconds ++ "s), exceeds 20% tolerance"]
  else []

/-- generators/storyboard_generator.py: `ContinuityChecker.check_continuity`. -/
def ContinuityChecker.check_continuity (storyboard : Storyboard) (script : Script) :
    Bool × List String :=
  match storyboard.validate with
  | (false, e) => (false, [e.getD ""])
  | (true, _) =>
    let issues :=
      ContinuityChecker.sceneExistenceIssues (pySetList (script.scenes.map Scene.scene_number))
        storyboard.shots ++
      ContinuityChecker.jumpCutScan none storyboard.shots ++
      ContinuityChecker.durationIssues storyboard ++
      ContinuityChecker.coverageIssues script.scenes storyboard.shots
    (issues.isEmpty, issues)

/-- models/advisory.py: `AdvisoryItem` dataclass. -/
structure AdvisoryItem where
  category : String
  priority : String
  description : String
  actionable_steps : List String := []
deriving DecidableEq, Repr

/-- models/advisory.py: `AdvisoryItem.validate`. -/
def AdvisoryItem.validate (item : AdvisoryItem) : Bool × Option String :=
  if strBlank item.category then (false, some "Category cannot be empty")
  else if !(["HIGH", "MEDIUM", "LOW"].contains item.priority) then
    (false, some ("Invalid priority: " ++ item.priority))
  else if strBlank item.description then (false, some "Description cannot be empty")
  else if item.actionable_steps.isEmpty then
    (false, some "Advisory must have at least one actionable step")
  else (true, none)

/-- models/advisory.py: the item-validation loop shared by
`ProductionNotes.validate` and `PostProductionNotes.validate`. -/
def AdvisoryItem.itemsError : List AdvisoryItem → Option String
  | [] => none
  | item :: items =>
    match item.validate with
    | (true, _) => AdvisoryItem.itemsError items
    | (false, e) => some (e.getD "")

/-- models/advisory.py: `ProductionNotes` dataclass. -/
structure ProductionNotes where
  script_title : String
  continuity_risks : List AdvisoryItem := []
  audio_recommendations : List AdvisoryItem := []
  coverage_suggestions : List AdvisoryItem := []
deriving DecidableEq, Repr

/-- models/advisory.py: `ProductionNotes.validate`. -/
def ProductionNotes.validate (n : ProductionNotes) : Bool × Option String :=
  if strBlank n.script_title then (false, some "Script title cannot be empty")
  else if n.continuity_risks.length + n.audio_recommendations.length +
      n.coverage_suggestions.length < 3 then
    (false, some "Production notes must have at least 3 actionable items")
  else
    match AdvisoryItem.itemsError
        (n.continuity_risks ++ n.audio_recommendations ++ n.coverage_suggestions) with
    | some e => (false, some e)
    | none => (true, none)

/-- models/advisory.py: `PostProductionNotes` dataclass. -/
structure PostProductionNotes where
  script_title : String
  editing_suggestions : List AdvisoryItem := []
  platform_guidelines : List AdvisoryItem := []
  revision_pitfalls : List AdvisoryItem := []
deriving DecidableEq, Repr

/-- models/advisory.py: `PostProductionNotes.validate`. -/
def PostProductionNotes.validate (n : PostProductionNotes) : Bool × Option String :=
  if strBlank n.script_title then (false, some "Script title cannot be empty")
  else if n.editing_suggestions.length + n.platform_guidelines.length +
      n.revision_pitfalls.length < 3 then
    (false, some "Post-production notes must have at least 3 actionable items")
  else
    match AdvisoryItem.itemsError
        (n.editing_suggestions ++ n.platform_guidelines ++ n.revision_pitfalls) with
    | some e => (false, some e)
    | none => (true, none)

/-- generators/advisory_generator.py: the `wardrobe_items` / `prop_scenes`
dict-building pattern — append `v` to the list under key `k`, inserting the
key at the end on first sight (CPython dicts preserve insertion order). -/
def addToAssoc {α : Type} [DecidableEq α] (k : α) (v : Int) :
    List (α × List Int) → List (α × List Int)
  | [] => [(k, [v])]
  | (k', vs) :: rest =>
    if k' = k then (k', vs ++ [v]) :: rest else (k', vs) :: addToAssoc k v rest

/-- generators/advisory_generator.py: build `wardrobe_items` — character →
scene numbers, over all breakdown entries. -/
def ProductionAdvisoryGenerator.wardrobeItems (entries : List BreakdownEntry) :
    List (String × List Int) :=
  entries.foldl (fun acc entry =>
    entry.characters.foldl (fun acc' char => addToAssoc char entry.scene_number acc') acc) []

/-- generators/advisory_generator.py: build `prop_scenes` — prop description →
scene numbers, over all breakdown entries. -/
def ProductionAdvisoryGenerator.propScenes (entries : List BreakdownEntry) :
    List (String × List Int) :=
  entries.foldl (fun acc entry =>
    entry.props.foldl (fun acc' prop => addToAssoc prop.description entry.scene_number acc') acc)
    []

/-- generators/advisory_generator.py: the adjacent-entry location/time scan of
`_analyze_continuity_risks`. -/
def ProductionAdvisoryGenerator.locationChanges (prev : Option BreakdownEntry) :
    List BreakdownEntry → List (Int × Int)
  | [] => []
  | entry :: rest =>
    (match prev with
     | some p =>
       if p.location ≠ entry.location ∨ p.time_of_day ≠ entry.time_of_day then
         [(p.scene_number, entry.scene_number)]
       else []
     | none => []) ++ ProductionAdvisoryGenerator.locationChanges (some entry) rest

/-- generators/advisory_generator.py: `ProductionAdvisoryGenerator._analyze_continuity_risks`. -/
def ProductionAdvisoryGenerator.analyze_continuity_risks (breakdown : Breakdown) :
    List AdvisoryItem :=
  let wardrobe := (ProductionAdvisoryGenerator.wardrobeItems breakdown.entries).filterMap
    (fun p =>
      if p.2.length > 1 then
        some { category := "continuity", priority := "HIGH",
               description := "Wardrobe continuity for " ++ p.1 ++ " across " ++
                 toString p.2.length ++ " scenes",
               actionable_steps :=
                 ["Document " ++ p.1 ++ "'s wardrobe in detail before shooting",
                  "Take reference photos of wardrobe from multiple angles",
                  "Maintain wardrobe consistency across scenes " ++
                    String.intercalate ", " (p.2.map toString)] }
      else none)
  let props := (ProductionAdvisoryGenerator.propScenes breakdown.entries).filterMap
    (fun p =>
      if p.2.length > 1 then
        some { category := "continuity", priority := "MEDIUM",
               description := "Prop continuity: " ++ p.1 ++ " appears in multiple scenes",
               actionable_steps :=
                 ["Track " ++ p.1 ++ " placement and condition",
                  "Take continuity photos between takes",
                  "Designate a continuity supervisor for props"] }
      else none)
  let transitions :=
    if !(ProductionAdvisoryGenerator.locationChanges none breakdown.entries).isEmpty then
      [({ category := "continuity", priority := "MEDIUM",
          description := "Location/time transitions require careful continuity",
          actionable_steps :=
            ["Document lighting conditions for each location",
             "Note exact camera positions for matching shots",
             "Review footage before moving to next location"] } : AdvisoryItem)]
    else []
  wardrobe ++ props ++ transitions

/-- generators/advisory_generator.py:
`ProductionAdvisoryGenerator._generate_audio_recommendations`. -/
def ProductionAdvisoryGenerator.generate_audio_recommendations (script : Script)
    (breakdown : Breakdown) : List AdvisoryItem :=
  let dialogueItems :=
    if script.scenes.any (fun scene => !scene.dialogues.isEmpty) then
      [({ category := "audio", priority := "HIGH",
          description := "Dialogue recording and backup",
          actionable_steps :=
            ["Use lavalier mics for all speaking characters",
             "Record backup audio with boom mic",
             "Capture room tone for each location (30 seconds minimum)",
             "Monitor audio levels continuously during takes"] } : AdvisoryItem)]
    else []
  let exteriorItems :=
    match breakdown.entries.find? (fun entry => entry.location_type.value == "EXT") with
    | some entry =>
      [({ category := "audio", priority := "MEDIUM",
          description := "Exterior audio challenges for Scene " ++ toString entry.scene_number,
          actionable_steps :=
            ["Scout location for ambient noise issues",
             "Plan shooting schedule around noise patterns",
             "Bring wind protection for microphones",
             "Record wild sound for atmosphere"] } : AdvisoryItem)]
    | none => []
  dialogueItems ++ exteriorItems ++
    [{ category := "audio", priority := "MEDIUM",
       description := "Audio coverage and wild sound",
       actionable_steps :=
         ["Record wild sound for each location",
          "Capture ambient sound separately",
          "Record foley reference sounds on set",
          "Document all audio takes with detailed notes"] }]

/-- generators/advisory_generator.py:
`ProductionAdvisoryGenerator._generate_coverage_suggestions` (the middle
block loops over the shot-count dict in key-insertion order, i.e. first
occurrence of each scene number among the shots). -/
def ProductionAdvisoryGenerator.generate_coverage_suggestions (storyboard : Storyboard) :
    List AdvisoryItem :=
  let perScene := (pySetList (storyboard.shots.map Shot.scene_number)).filterMap
    (fun scene_num =>
      let shot_count := storyboard.shots.countP (fun shot => shot.scene_number == scene_num)
      if shot_count < 3 then
        some { category := "coverage", priority := "MEDIUM",
               description := "Scene " ++ toString scene_num ++ " has limited coverage (" ++
                 toString shot_count ++ " shots)",
               actionable_steps :=
                 ["Consider additional angles for editing flexibility",
                  "Shoot safety coverage from different perspectives",
                  "Capture reaction shots if multiple characters present"] }
      else none)
  [({ category := "coverage", priority := "HIGH",
      description := "B-roll and cutaway coverage",
      actionable_steps :=
        ["Shoot establishing shots from multiple angles",
         "Capture insert shots of key props and details",
         "Record environmental B-roll for each location",
         "Get cutaways for editing flexibility"] } : AdvisoryItem)] ++
  perScene ++
  [{ category := "coverage", priority := "MEDIUM",
     description := "Safety coverage and protection shots",
     actionable_steps :=
       ["Shoot master shots for each scene",
        "Get clean plates of locations without actors",
        "Record additional takes of critical moments",
        "Capture coverage for potential reshoots"] }]

/-- generators/advisory_generator.py: `ProductionAdvisoryGenerator.generate`. -/
def ProductionAdvisoryGenerator.generate (script : Script) (breakdown : Breakdown)
    (storyboard : Storyboard) : ProductionNotes :=
  { script_title := script.title,
    continuity_risks := ProductionAdvisoryGenerator.analyze_continuity_risks breakdown,
    audio_recommendations :=
      ProductionAdvisoryGenerator.generate_audio_recommendations script breakdown,
    coverage_suggestions :=
      ProductionAdvisoryGenerator.generate_coverage_suggestions storyboard }

/-- generators/advisory_generator.py:
`PostProductionAdvisoryGenerator._generate_editing_suggestions`. -/
def PostProductionAdvisoryGenerator.generate_editing_suggestions (script : Script) :
    List AdvisoryItem :=
  let hookItems :=
    match script.scenes with
    | scene :: _ =>
      if scene.is_hook then
        [({ category := "editing", priority := "HIGH",
            description := "Hook optimization for retention",
            actionable_steps :=
              ["Ensure hook appears within first 3 seconds",
               "Use quick cuts to maintain energy",
               "Add sound effects or music to enhance impact",
               "Test multiple hook variations for engagement"] } : AdvisoryItem)]
      else []
    | [] => []
  let pacingItems :=
    if script.target_duration_seconds ≤ 60 then
      [({ category := "editing", priority := "HIGH",
          description := "Short-form pacing and rhythm",
          actionable_steps :=
            ["Keep cuts dynamic (2-4 seconds per shot average)",
             "Use jump cuts to compress time",
             "Add transitions sparingly (cuts are faster)",
             "Maintain momentum throughout - no dead air"] } : AdvisoryItem)]
    else []
  hookItems ++ pacingItems ++
    [{ category := "editing", priority := "MEDIUM",
       description := "Scene transitions and flow",
       actionable_steps :=
         ["Use audio bridges between scenes",
          "Match action across cuts when possible",
          "Consider L-cuts and J-cuts for smooth transitions",
          "Test pacing by watching without sound"] }]

/-- generators/advisory_generator.py:
`PostProductionAdvisoryGenerator._generate_platform_guidelines`. -/
def PostProductionAdvisoryGenerator.generate_platform_guidelines (script : Script) :
    List AdvisoryItem :=
  let platform := script.platform.value
  let verticalItems :=
    if ["tiktok", "instagram_reels"].contains platform then
      [({ category := "platform", priority := "HIGH",
          description := pyUpper platform ++ " vertical format optimization",
          actionable_steps :=
            ["Export in 9:16 vertical aspect ratio",
             "Frame for mobile viewing (faces in upper 2/3)",
             "Ensure text is readable on small screens",
             "Test on actual mobile device before publishing"] } : AdvisoryItem)]
    else []
  verticalItems ++
    [{ category := "platform", priority := "HIGH",
       description := "Subtitles and captions for accessibility",
       actionable_steps :=
         ["Add burned-in subtitles (many watch without sound)",
          "Use large, high-contrast text (white with black outline)",
          "Sync subtitles precisely with dialogue",
          "Keep subtitle duration readable (1-2 seconds per line)"] },
     { category := "platform", priority := "MEDIUM",
       description := "Sound design and music",
       actionable_steps :=
         ["Use trending audio if appropriate for platform",
          "Balance music and dialogue levels carefully",
          "Add sound effects to enhance key moments",
          "Ensure audio is clear even on phone speakers"] },
     { category := "platform", priority := "MEDIUM",
       description := "Color grading for mobile viewing",
       actionable_steps :=
         ["Increase contrast for mobile screens",
          "Boost saturation slightly for impact",
          "Ensure skin tones are natural",
          "Test color on multiple devices"] }]

/-- generators/advisory_generator.py:
`PostProductionAdvisoryGenerator._generate_revision_pitfalls` (three fixed items). -/
def PostProductionAdvisoryGenerator.generate_revision_pitfalls : List AdvisoryItem :=
  [{ category := "revision", priority := "MEDIUM",
     description := "Over-editing and loss of natural flow",
     actionable_steps :=
       ["Don't cut too frequently - allow moments to breathe",
        "Preserve natural pauses in dialogue",
        "Avoid excessive effects or transitions",
        "Get fresh eyes - show to someone unfamiliar with project"] },
   { category := "revision", priority := "HIGH",
     description := "Audio quality and consistency",
     actionable_steps :=
       ["Check audio levels are consistent across cuts",
        "Remove background noise without losing dialogue clarity",
        "Ensure music doesn't overpower dialogue",
        "Add room tone to fill gaps and smooth transitions"] },
   { category := "revision", priority := "MEDIUM",
     description := "Pacing and retention issues",
     actionable_steps :=
       ["Cut ruthlessly - remove anything that doesn't serve the story",
        "Test with target audience for engagement",
        "Watch for drop-off points and tighten those sections",
        "Ensure payoff matches the hook's promise"] }]

/-- generators/advisory_generator.py: `PostProductionAdvisoryGenerator.generate`. -/
def PostProductionAdvisoryGenerator.generate (script : Script) : PostProductionNotes :=
  { script_title := script.title,
    editing_suggestions := PostProductionAdvisoryGenerator.generate_editing_suggestions script,
    platform_guidelines := PostProductionAdvisoryGenerator.generate_platform_guidelines script,
    revision_pitfalls := PostProductionAdvisoryGenerator.generate_revision_pitfalls }

/-- workflow/entertainment_workflow.py: result triple of `execute_full_workflow`;
`output_files` records artifact name → path for every file written. -/
structure WorkflowResult where
  success : Bool
  errors : List String
  output_files : List (String × String)
deriving DecidableEq, Repr

/-- workflow/entertainment_workflow.py: the `output_dir / f"{title.replace(' ', '_')}_{suffix}"`
path construction. -/
def workflowPath (output_dir title suffix : String) : String :=
  output_dir ++ "/" ++ title.replace " " "_" ++ suffix

/-- workflow/entertainment_workflow.py: `EntertainmentWorkflow.execute_full_workflow` —
five generate/validate stages, stopping at the first failed gate; the
`try/except` around the body turns a generator raise into a
`"Workflow error: ..."` entry. -/
def EntertainmentWorkflow.execute_full_workflow (title genre : String) (platform : Platform)
    (target_duration_seconds : Int) (target_audience : String) (output_dir : String) :
    WorkflowResult :=
  let script := ScriptGenerator.generate title genre platform target_duration_seconds
    target_audience none
  match ScriptValidator.validate_for_production script with
  | (false, issues) => { success := false, errors := issues, output_files := [] }
  | (true, _) =>
    let files1 := [("script", workflowPath output_dir title "_script.json")]
    match BreakdownGenerator.generate script with
    | .error e =>
      { success := false, errors := ["Workflow error: " ++ e], output_files := files1 }
    | .ok breakdown =>
      match BreakdownValidator.validate_against_script breakdown script with
      | (false, issues) => { success := false, errors := issues, output_files := files1 }
      | (true, _) =>
        let files2 := files1 ++
          [("breakdown_json", workflowPath output_dir title "_breakdown.json"),
           ("breakdown_csv", workflowPath output_dir title "_breakdown.csv")]
        match StoryboardGenerator.generate script breakdown with
        | .error e =>
          { success := false, errors := ["Workflow error: " ++ e], output_files := files2 }
        | .ok storyboard =>
          match ContinuityChecker.check_continuity storyboard script with
          | (false, issues) => { success := false, errors := issues, output_files := files2 }
          | (true, _) =>
            let files3 := files2 ++
              [("storyboard", workflowPath output_dir title "_storyboard.md"),
               ("shotlist", workflowPath output_dir title "_shotlist.csv")]
            let production_notes :=
              ProductionAdvisoryGenerator.generate script breakdown storyboard
            match production_notes.validate with
            | (false, e) =>
              { success := false, errors := [e.getD ""], output_files := files3 }
            | (true, _) =>
              let files4 := files3 ++
                [("production_notes", workflowPath output_dir title "_production_notes.md")]
              let postprod_notes := PostProductionAdvisoryGenerator.generate script
              match postprod_notes.validate with
              | (false, e) =>
                { success := false, errors := [e.getD ""], output_files := files4 }
              | (true, _) =>
                { success := true, errors := [],
                  output_files := files4 ++
                    [("postproduction_notes",
                      workflowPath output_dir title "_postproduction_notes.md")] }


/-- JSON value trees. `to_json` / `from_json` in the source are
`json.dumps`/`json.loads` composed with `to_dict`/`from_dict`; since
dumps/loads are mutually inverse between trees and their textual form, the
round-trip content is captured at the tree level. -/
inductive Json where
  | null
  | bool (b : Bool)
  | int (n : Int)
  | str (s : String)
  | arr (xs : List Json)
  | obj (fields : List (String × Json))

/-- Python `data[key]` / `data.get(key)` on a JSON object. -/
def Json.get? (j : Json) (key : String) : Option Json :=
  match j with
  | .obj fields => fields.lookup key
  | _ => none

/-- Decode a JSON string leaf. -/
def Json.asStr : Json → Option String
  | .str s => some s
  | _ => none

/-- Decode a JSON integer leaf. -/
def Json.asInt : Json → Option Int
  | .int n => some n
  | _ => none

/-- Decode a JSON boolean leaf. -/
def Json.asBool : Json → Option Bool
  | .bool b => some b
  | _ => none

/-- Decode an optional JSON string (dataclass fields defaulting to `None`). -/
def Json.asOptStr : Json → Option (Option String)
  | .null => some none
  | .str s => some (some s)
  | _ => none

/-- Decode an optional JSON integer. -/
def Json.asOptInt : Json → Option (Option Int)
  | .null => some none
  | .int n => some (some n)
  | _ => none

/-- Fetch a required string field (`data[k]` on a string). -/
def Json.getStr (j : Json) (k : String) : Option String := (j.get? k).bind Json.asStr

/-- Fetch a required integer field. -/
def Json.getInt (j : Json) (k : String) : Option Int := (j.get? k).bind Json.asInt

/-- Fetch a required boolean field. -/
def Json.getBool (j : Json) (k : String) : Option Bool := (j.get? k).bind Json.asBool

/-- Fetch an optional-string field (present as `null` when `None`). -/
def Json.getOptStr (j : Json) (k : String) : Option (Option String) :=
  (j.get? k).bind Json.asOptStr

/-- Fetch an optional-integer field. -/
def Json.getOptInt (j : Json) (k : String) : Option (Option Int) :=
  (j.get? k).bind Json.asOptInt

/-- Decode each element of a JSON array (the list comprehensions inside the
`from_dict` constructors). -/
def Json.decodeList (dec : Json → Option α) : List Json → Option (List α)
  | [] => some []
  | x :: xs =>
    match dec x, Json.decodeList dec xs with
    | some y, some ys => some (y :: ys)
    | _, _ => none

/-- Python `[dec(x) for x in data.get(k, [])]`: decode a list-valued field,
defaulting to the empty list when the key is absent. -/
def Json.getList (j : Json) (k : String) (dec : Json → Option α) : Option (List α) :=
  match j.get? k with
  | some (.arr xs) => Json.decodeList dec xs
  | some _ => none
  | none => some []

/-- Encode an optional string as a JSON leaf (`None` → `null`). -/
def Json.ofOptStr : Option String → Json
  | none => .null
  | some s => .str s

/-- Encode an optional integer as a JSON leaf. -/
def Json.ofOptInt : Option Int → Json
  | none => .null
  | some n => .int n

/-- models/script.py: `asdict(dialogue)` as used by `Script.to_dict`. -/
def Dialogue.to_dict (d : Dialogue) : Json :=
  .obj [("character", .str d.character), ("text", .str d.text),
        ("action", Json.ofOptStr d.action)]

/-- models/script.py: `Dialogue(**d)` inside `Script.from_dict`. -/
def Dialogue.from_dict (j : Json) : Option Dialogue :=
  match j.getStr "character", j.getStr "text", j.getOptStr "action" with
  | some character, some text, some action =>
    some { character := character, text := text, action := action }
  | _, _, _ => none

/-- models/script.py: `asdict(char)` as used by `Script.to_dict`. -/
def Character.to_dict (c : Character) : Json :=
  .obj [("name", .str c.name), ("description", Json.ofOptStr c.description),
        ("age_range", Json.ofOptStr c.age_range)]

/-- models/script.py: `Character(**char)` inside `Script.from_dict`. -/
def Character.from_dict (j : Json) : Option Character :=
  match j.getStr "name", j.getOptStr "description", j.getOptStr "age_range" with
  | some name, some description, some age_range =>
    some { name := name, description := description, age_range := age_range }
  | _, _, _ => none

/-- models/script.py: `asdict(scene)` as used by `Script.to_dict`. -/
def Scene.to_dict (sc : Scene) : Json :=
  .obj [("scene_number", .int sc.scene_number),
        ("location", .str sc.location),
        ("time_of_day", .str sc.time_of_day),
        ("interior_exterior", .str sc.interior_exterior),
        ("description", .str sc.description),
        ("dialogues", .arr (sc.dialogues.map Dialogue.to_dict)),
        ("estimated_duration_seconds", Json.ofOptInt sc.estimated_duration_seconds),
        ("is_hook", .bool sc.is_hook)]

/-- models/script.py: the `Scene(**{**scene, "dialogues": ...})` reconstruction
inside `Script.from_dict`. -/
def Scene.from_dict (j : Json) : Option Scene :=
  match j.getInt "scene_number", j.getStr "location", j.getStr "time_of_day",
      j.getStr "interior_exterior", j.getStr "description",
      j.getList "dialogues" Dialogue.from_dict,
      j.getOptInt "estimated_duration_seconds", j.getBool "is_hook" with
  | some scene_number, some location, some time_of_day, some interior_exterior,
      some description, some dialogues, some estimated, some is_hook =>
    some { scene_number := scene_number, location := location, time_of_day := time_of_day,
           interior_exterior := interior_exterior, description := description,
           dialogues := dialogues, estimated_duration_seconds := estimated, is_hook := is_hook }
  | _, _, _, _, _, _, _, _ => none

/-- models/script.py: `asdict(flag)` as used by `Script.to_dict`. -/
def CostFlag.to_dict (f : CostFlag) : Json :=
  .obj [("element_type", .str f.element_type), ("description", .str f.description),
        ("estimated_complexity", .str f.estimated_complexity)]

/-- models/script.py: `CostFlag(**flag)` inside `Script.from_dict`. -/
def CostFlag.from_dict (j : Json) : Option CostFlag :=
  match j.getStr "element_type", j.getStr "description", j.getStr "estimated_complexity" with
  | some element_type, some description, some estimated_complexity =>
    some { element_type := element_type, description := description,
           estimated_complexity := estimated_complexity }
  | _, _, _ => none

/-- models/script.py: `Script.to_dict` (and hence the tree `to_json` serializes). -/
def Script.to_dict (s : Script) : Json :=
  .obj [("title", .str s.title),
        ("genre", .str s.genre),
        ("platform", .str s.platform.value),
        ("target_duration_seconds", .int s.target_duration_seconds),
        ("target_audience", .str s.target_audience),
        ("characters", .arr (s.characters.map Character.to_dict)),
        ("scenes", .arr (s.scenes.map Scene.to_dict)),
        ("cost_flags", .arr (s.cost_flags.map CostFlag.to_dict))]

/-- models/script.py: `Script.from_dict` (and hence `from_json` after parsing). -/
def Script.from_dict (j : Json) : Option Script :=
  match j.getStr "title", j.getStr "genre", (j.getStr "platform").bind Platform.fromValue,
      j.getInt "target_duration_seconds", j.getStr "target_audience",
      j.getList "characters" Character.from_dict, j.getList "scenes" Scene.from_dict,
      j.getList "cost_flags" CostFlag.from_dict with
  | some title, some genre, some platform, some target_duration_seconds,
      some target_audience, some characters, some scenes, some cost_flags =>
    some { title := title, genre := genre, platform := platform,
           target_duration_seconds := target_duration_seconds,
           target_audience := target_audience, characters := characters,
           scenes := scenes, cost_flags := cost_flags }
  | _, _, _, _, _, _, _, _ => none

/-- models/script.py: `Script.to_json` — the JSON tree that
`json.dumps(self.to_dict())` renders. -/
def Script.to_json (s : Script) : Json := s.to_dict

/-- models/script.py: `Script.from_json` — `from_dict` after `json.loads`. -/
def Script.from_json (j : Json) : Option Script := Script.from_dict j

/-- models/breakdown.py: `asdict(p)` for a `ProductionElement`. -/
def ProductionElement.to_dict (p : ProductionElement) : Json :=
  .obj [("element_type", .str p.element_type), ("description", .str p.description),
        ("quantity", .int p.quantity), ("notes", Json.ofOptStr p.notes)]

/-- models/breakdown.py: `ProductionElement(**p)` inside `Breakdown.from_dict`. -/
def ProductionElement.from_dict (j : Json) : Option ProductionElement :=
  match j.getStr "element_type", j.getStr "description", j.getInt "quantity",
      j.getOptStr "notes" with
  | some element_type, some description, some quantity, some notes =>
    some { element_type := element_type, description := description, quantity := quantity,
           notes := notes }
  | _, _, _, _ => none

/-- models/breakdown.py: `BreakdownEntry.to_dict`. -/
def BreakdownEntry.to_dict (e : BreakdownEntry) : Json :=
  .obj [("scene_number", .int e.scene_number),
        ("scene_description", .str e.scene_description),
        ("location", .str e.location),
        ("location_type", .str e.location_type.value),
        ("time_of_day", .str e.time_of_day.value),
        ("characters", .arr (e.characters.map Json.str)),
        ("props", .arr (e.props.map ProductionElement.to_dict)),
        ("wardrobe", .arr (e.wardrobe.map ProductionElement.to_dict)),
        ("makeup", .arr (e.makeup.map ProductionElement.to_dict)),
        ("special_requirements", .arr (e.special_requirements.map ProductionElement.to_dict)),
        ("estimated_setup_time_minutes", Json.ofOptInt e.estimated_setup_time_minutes)]

/-- models/breakdown.py: the per-entry reconstruction inside `Breakdown.from_dict`
(`e.get("estimated_setup_time_minutes")` defaults to `None` when absent). -/
def BreakdownEntry.from_dict (j : Json) : Option BreakdownEntry :=
  match j.getInt "scene_number", j.getStr "scene_description", j.getStr "location",
      (j.getStr "location_type").bind LocationType.fromValue,
      (j.getStr "time_of_day").bind TimeOfDay.fromValue,
      j.getList "characters" Json.asStr,
      j.getList "props" ProductionElement.from_dict,
      j.getList "wardrobe" ProductionElement.from_dict,
      j.getList "makeup" ProductionElement.from_dict,
      j.getList "special_requirements" ProductionElement.from_dict,
      (match j.get? "estimated_setup_time_minutes" with
       | some v => v.asOptInt
       | none => some none) with
  | some scene_number, some scene_description, some location, some location_type,
      some time_of_day, some characters, some props, some wardrobe, some makeup,
      some special_requirements, some estimated =>
    some { scene_number := scene_number, scene_description := scene_description,
           location := location, location_type := location_type, time_of_day := time_of_day,
           characters := characters, props := props, wardrobe := wardrobe, makeup := makeup,
           special_requirements := special_requirements,
           estimated_setup_time_minutes := estimated }
  | _, _, _, _, _, _, _, _, _, _, _ => none

/-- models/breakdown.py: `Breakdown.to_dict` / the tree `to_json` serializes. -/
def Breakdown.to_json (b : Breakdown) : Json :=
  .obj [("script_title", .str b.script_title),
        ("entries", .arr (b.entries.map BreakdownEntry.to_dict))]

/-- models/breakdown.py: `Breakdown.from_dict` / `from_json` after parsing. -/
def Breakdown.from_json (j : Json) : Option Breakdown :=
  match j.getStr "script_title", j.getList "entries" BreakdownEntry.from_dict with
  | some script_title, some entries =>
    some { script_title := script_title, entries := entries }
  | _, _ => none

/-- models/storyboard.py: `Shot.to_dict`. -/
def Shot.to_dict (s : Shot) : Json :=
  .obj [("shot_id", .str s.shot_id),
        ("scene_number", .int s.scene_number),
        ("shot_size", .str s.shot_size.value),
        ("camera_position", .str s.camera_position),
        ("camera_movement", .str s.camera_movement.value),
        ("visual_description", .str s.visual_description),
        ("suggested_duration_seconds", .int s.suggested_duration_seconds),
        ("audio_notes", Json.ofOptStr s.audio_notes)]

/-- models/storyboard.py: the per-shot reconstruction inside `Storyboard.from_dict`. -/
def Shot.from_dict (j : Json) : Option Shot :=
  match j.getStr "shot_id", j.getInt "scene_number",
      (j.getStr "shot_size").bind ShotSize.fromValue, j.getStr "camera_position",
      (j.getStr "camera_movement").bind CameraMovement.fromValue,
      j.getStr "visual_description", j.getInt "suggested_duration_seconds",
      j.getOptStr "audio_notes" with
  | some shot_id, some scene_number, some shot_size, some camera_position,
      some camera_movement, some visual_description, some suggested_duration_seconds,
      some audio_notes =>
    some { shot_id := shot_id, scene_number := scene_number, shot_size := shot_size,
           camera_position := camera_position, camera_movement := camera_movement,
           visual_description := visual_description,
           suggested_duration_seconds := suggested_duration_seconds,
           audio_notes := audio_notes }
  | _, _, _, _, _, _, _, _ => none

/-- models/storyboard.py: `Storyboard.to_dict` / the tree `to_json` serializes. -/
def Storyboard.to_json (sb : Storyboard) : Json :=
  .obj [("script_title", .str sb.script_title),
        ("target_duration_seconds", .int sb.target_duration_seconds),
        ("shots", .arr (sb.shots.map Shot.to_dict))]

/-- models/storyboard.py: `Storyboard.from_dict` / `from_json` after parsing. -/
def Storyboard.from_json (j : Json) : Option Storyboard :=
  match j.getStr "script_title", j.getInt "target_duration_seconds",
      j.getList "shots" Shot.from_dict with
  | some script_title, some target_duration_seconds, some shots =>
    some { script_title := script_title, target_duration_seconds := target_duration_seconds,
           shots := shots }
  | _, _, _ => none

/-! General helper lemmas, then the claim theorems. -/

lemma decodeList_roundtrip {α : Type} (enc : α → Json) (dec : Json → Option α)
    (h : ∀ x, dec (enc x) = some x) : ∀ xs : List α, Json.decodeList dec (xs.map enc) = some xs := by
  intro xs
  induction xs with
  | nil => rfl
  | cons x xs ih => simp [Json.decodeList, h, ih]

lemma platform_fromValue_value (p : Platform) : Platform.fromValue p.value = some p := by
  cases p <;> rfl

lemma locationType_fromValue_value (l : LocationType) :
    LocationType.fromValue l.value = some l := by
  cases l <;> rfl

lemma timeOfDay_fromValue_value (t : TimeOfDay) : TimeOfDay.fromValue t.value = some t := by
  cases t <;> rfl

lemma shotSize_fromValue_value (s : ShotSize) : ShotSize.fromValue s.value = some s := by
  cases s <;> rfl

lemma cameraMovement_fromValue_value (c : CameraMovement) :
    CameraMovement.fromValue c.value = some c := by
  cases c <;> rfl

lemma dialogue_from_to_dict (d : Dialogue) : Dialogue.from_dict d.to_dict = some d := by
  obtain ⟨c, t, a⟩ := d
  cases a <;> rfl

lemma character_from_to_dict (c : Character) : Character.from_dict c.to_dict = some c := by
  obtain ⟨n, d, a⟩ := c
  cases d <;> cases a <;> rfl

lemma costFlag_from_to_dict (f : CostFlag) : CostFlag.from_dict f.to_dict = some f := by
  obtain ⟨e, d, c⟩ := f
  rfl

lemma scene_from_to_dict (sc : Scene) : Scene.from_dict sc.to_dict = some sc := by
  obtain ⟨n, loc, tod, ie, desc, ds, est, hk⟩ := sc
  have hds := decodeList_roundtrip Dialogue.to_dict Dialogue.from_dict dialogue_from_to_dict ds
  cases est <;>
    simp [Scene.from_dict, Scene.to_dict, Json.getInt, Json.getStr, Json.getList,
      Json.getOptInt, Json.getBool, Json.get?, Json.asInt, Json.asStr, Json.asOptInt,
      Json.asBool, Json.ofOptInt, List.lookup, hds]

lemma productionElement_from_to_dict (p : ProductionElement) :
    ProductionElement.from_dict p.to_dict = some p := by
  obtain ⟨e, d, q, n⟩ := p
  cases n <;> rfl

lemma breakdownEntry_from_to_dict (e : BreakdownEntry) :
    BreakdownEntry.from_dict e.to_dict = some e := by
  obtain ⟨n, sd, loc, lt, tod, cs, ps, ws, ms, sr, est⟩ := e
  have hps := decodeList_roundtrip ProductionElement.to_dict ProductionElement.from_dict
    productionElement_from_to_dict ps
  have hws := decodeList_roundtrip ProductionElement.to_dict ProductionElement.from_dict
    productionElement_from_to_dict ws
  have hms := decodeList_roundtrip ProductionElement.to_dict ProductionElement.from_dict
    productionElement_from_to_dict ms
  have hsr := decodeList_roundtrip ProductionElement.to_dict ProductionElement.from_dict
    productionElement_from_to_dict sr
  have hcs := decodeList_roundtrip Json.str Json.asStr (fun _ => rfl) cs
  cases est <;>
    simp [BreakdownEntry.from_dict, BreakdownEntry.to_dict, Json.getInt, Json.getStr,
      Json.getList, Json.getOptInt, Json.get?, Json.asInt, Json.asStr, Json.asOptInt,
      Json.ofOptInt, List.lookup, hps, hws, hms, hsr, hcs,
      locationType_fromValue_value, timeOfDay_fromValue_value]

lemma shot_from_to_dict (s : Shot) : Shot.from_dict s.to_dict = some s := by
  obtain ⟨sid, n, sz, cp, cm, vd, dur, an⟩ := s
  cases an <;> cases sz <;> cases cm <;> rfl

lemma script_from_to_dict (s : Script) : Script.from_dict s.to_dict = some s := by
  obtain ⟨t, g, p, dur, aud, cs, scs, fs⟩ := s
  have hcs := decodeList_roundtrip Character.to_dict Character.from_dict
    character_from_to_dict cs
  have hscs := decodeList_roundtrip Scene.to_dict Scene.from_dict scene_from_to_dict scs
  have hfs := decodeList_roundtrip CostFlag.to_dict CostFlag.from_dict costFlag_from_to_dict fs
  simp [Script.from_dict, Script.to_dict, Json.getInt, Json.getStr, Json.getList,
    Json.get?, Json.asInt, Json.asStr, List.lookup, hcs, hscs, hfs,
    platform_fromValue_value]

lemma breakdown_from_to_json (b : Breakdown) : Breakdown.from_json b.to_json = some b := by
  obtain ⟨t, es⟩ := b
  have hes := decodeList_roundtrip BreakdownEntry.to_dict BreakdownEntry.from_dict
    breakdownEntry_from_to_dict es
  simp [Breakdown.from_json, Breakdown.to_json, Json.getStr, Json.getList, Json.get?,
    Json.asStr, List.lookup, hes]

lemma storyboard_from_to_json (sb : Storyboard) : Storyboard.from_json sb.to_json = some sb := by
  obtain ⟨t, dur, shots⟩ := sb
  have hsh := decodeList_roundtrip Shot.to_dict Shot.from_dict shot_from_to_dict shots
  simp [Storyboard.from_json, Storyboard.to_json, Json.getStr, Json.getInt, Json.getList,
    Json.get?, Json.asStr, Json.asInt, List.lookup, hsh]

/-- C6: for every Script value, `Script.from_json (script.to_json)` reconstructs
the script field-for-field, including nested Characters, Scenes, Dialogues, the
Platform enum and optional `None` fields; and likewise for
`Breakdown.from_json ∘ Breakdown.to_json` and
`Storyboard.from_json ∘ Storyboard.to_json`. -/
theorem C6_json_roundtrip :
    (∀ s : Script, Script.from_json s.to_json = some s) ∧
    (∀ b : Breakdown, Breakdown.from_json b.to_json = some b) ∧
    (∀ sb : Storyboard, Storyboard.from_json sb.to_json = some sb) :=
  ⟨fun s => script_from_to_dict s, breakdown_from_to_json, storyboard_from_to_json⟩

lemma seqFrom_length (k : Int) (n : Nat) : (seqFrom k n).length = n := by
  induction n generalizing k with
  | zero => rfl
  | succ m ih => simp [seqFrom, ih]

lemma mem_seqFrom {x k : Int} {n : Nat} : x ∈ seqFrom k n ↔ k ≤ x ∧ x < k + n := by
  induction n generalizing k with
  | zero => simp [seqFrom]
  | succ m ih =>
    simp [seqFrom, ih]
    omega

lemma seqFrom_succ_last (k : Int) (n : Nat) : seqFrom k (n + 1) = seqFrom k n ++ [k + n] := by
  induction n generalizing k with
  | zero => simp [seqFrom]
  | succ m ih =>
    rw [seqFrom, ih, seqFrom]
    simp
    omega

lemma seqFrom_nodup (k : Int) (n : Nat) : (seqFrom k n).Nodup := by
  induction n generalizing k with
  | zero => simp [seqFrom]
  | succ m ih =>
    rw [seqFrom]
    refine List.nodup_cons.mpr ⟨?_, ih (k + 1)⟩
    rw [mem_seqFrom]
    omega

lemma pySetListAux_eq_self {α : Type} [DecidableEq α] :
    ∀ {l seen : List α}, (∀ x ∈ l, x ∉ seen) → l.Nodup → pySetListAux seen l = l := by
  intro l
  induction l with
  | nil => intro seen _ _; rfl
  | cons x xs ih =>
    intro seen hdisj hnd
    rw [List.nodup_cons] at hnd
    rw [pySetListAux, if_neg]
    · rw [ih ?_ hnd.2]
      intro a ha
      simp only [List.mem_cons, not_or]
      exact ⟨fun hax => hnd.1 (hax ▸ ha), hdisj a (by simp [ha])⟩
    · intro hc
      exact hdisj x (by simp) (by simpa using hc)

lemma pySetList_eq_self {α : Type} [DecidableEq α] {l : List α} (h : l.Nodup) :
    pySetList l = l :=
  pySetListAux_eq_self (by simp) h

lemma insertSorted_min (x : Int) (l : List Int) (h : ∀ y ∈ l, x ≤ y) :
    insertSorted x l = x :: l := by
  cases l with
  | nil => rfl
  | cons y ys =>
    rw [insertSorted, if_pos (h y (by simp))]

lemma pySorted_seqFrom (k : Int) (n : Nat) : pySorted (seqFrom k n) = seqFrom k n := by
  induction n generalizing k with
  | zero => rfl
  | succ m ih =>
    rw [seqFrom, pySorted, ih]
    refine insertSorted_min k _ (fun y hy => ?_)
    rw [mem_seqFrom] at hy
    omega

lemma strBlank_append (s t : String) : strBlank (s ++ t) = (strBlank s && strBlank t) := by
  simp [strBlank, String.data_append, List.all_append]

/-- C2: every generated Script opens with the hook scene — `is_hook = true`,
a fixed 5-second estimated duration, scene number 1 — and the scene numbers
are exactly 1..len(scenes) in list order, for any title, genre, platform,
audience and target duration. -/
theorem C2_generated_script_hook_first_and_sequential (title genre : String)
    (platform : Platform) (t : Int) (audience : String) (concept : Option String) :
    (∃ h rest, (ScriptGenerator.generate title genre platform t audience concept).scenes =
        h :: rest ∧ h.is_hook = true ∧ h.estimated_duration_seconds = some 5 ∧
        h.scene_number = 1) ∧
    (ScriptGenerator.generate title genre platform t audience concept).scenes.map
        Scene.scene_number =
      seqFrom 1 (ScriptGenerator.generate title genre platform t audience
        concept).scenes.length := by
  unfold ScriptGenerator.generate ScriptGenerator.generate_scenes
  by_cases h45 : t ≥ 45 <;> simp [h45, seqFrom]

/-- A 51-word dialogue line (each word "w"), tripping the >50-word check. -/
def longDialogueText : String := String.intercalate " " (List.replicate 51 "w")

/-- A structurally valid script whose single dialogue exceeds 50 words and whose
estimated duration (100s) deviates more than 30% from its 30s target: both the
word-count check and the duration check fire. -/
def c5script : Script :=
  { title := "T", genre := "g", platform := .TIKTOK, target_duration_seconds := 30,
    target_audience := "a",
    characters := [{ name := "X" }],
    scenes := [{ scene_number := 1, location := "L", time_of_day := "DAY",
                 interior_exterior := "INT", description := "d",
                 dialogues := [{ character := "X", text := longDialogueText }],
                 estimated_duration_seconds := some 100, is_hook := true }] }

lemma pyDeviation_gt_div_iff {total target : Int} (ht : 0 < target) (a b : Int)
    (hb : 0 < b) :
    (pyDeviation total target > ((a : Rat) / (b : Rat))) ↔
      a * target < |total - target| * b := by
  unfold pyDeviation
  rw [gt_iff_lt, div_lt_div_iff₀ (by exact_mod_cast hb) (by exact_mod_cast ht)]
  exact_mod_cast Iff.rfl

lemma pyDeviation_gt_point3_iff {total target : Int} (ht : 0 < target) :
    (pyDeviation total target > (0.3 : Rat)) ↔ 3 * target < |total - target| * 10 := by
  have h := @pyDeviation_gt_div_iff total target ht 3 10 (by norm_num)
  rw [show ((3 : Int) : Rat) / ((10 : Int) : Rat) = (0.3 : Rat) by norm_num] at h
  exact h

lemma pyDeviation_gt_point2_iff {total target : Int} (ht : 0 < target) :
    (pyDeviation total target > (0.2 : Rat)) ↔ 1 * target < |total - target| * 5 := by
  have h := @pyDeviation_gt_div_iff total target ht 1 5 (by norm_num)
  rw [show ((1 : Int) : Rat) / ((5 : Int) : Rat) = (0.2 : Rat) by norm_num] at h
  exact h

set_option maxRecDepth 8000 in
lemma c5_dialogue_issues :
    ScriptValidator.dialogueLengthIssues c5script.scenes =
      ["Scene 1: Dialogue too long for X (>50 words may not be conversational)"] := by
  decide

lemma c5_duration_issues :
    ScriptValidator.durationIssues c5script =
      ["Total estimated duration (100s) deviates significantly from target (30s)"] := by
  have htot : ScriptValidator.totalEstimatedDuration c5script.scenes = 100 := by decide
  unfold ScriptValidator.durationIssues
  rw [htot]
  rw [if_pos (by decide), if_pos ((pyDeviation_gt_point3_iff (by decide)).mpr (by decide))]
  rfl

set_option maxRecDepth 8000 in
/-- C5 counterexample: on `c5script` the per-dialogue word-count check fails,
yet the issue of the later aggregate-duration check still appears in the
returned list — `validate_for_production` does not short-circuit between the
dialogue check and the duration check. -/
theorem C5_counterexample :
    ScriptValidator.validate_for_production c5script =
      (false,
       ["Scene 1: Dialogue too long for X (>50 words may not be conversational)",
        "Total estimated duration (100s) deviates significantly from target (30s)"]) := by
  have hv : c5script.validate = (true, none) := by decide
  unfold ScriptValidator.validate_for_production
  rw [hv, c5_dialogue_issues, c5_duration_issues]
  rfl

/-- C5 amended: `validate_for_production` applies its three checks in order but
short-circuits only on the structural self-check; when the structural check
passes, the per-dialogue word-count check and the aggregate-duration check both
run, their issues accumulating in that order (so an issue of a later check can
appear together with one of an earlier check). -/
theorem C5_amended_short_circuit_only_structural (script : Script) :
    (script.validate.1 = false →
      ScriptValidator.validate_for_production script =
        (false, [script.validate.2.getD ""])) ∧
    (script.validate.1 = true →
      ScriptValidator.validate_for_production script =
        ((ScriptValidator.dialogueLengthIssues script.scenes ++
            ScriptValidator.durationIssues script).isEmpty,
         ScriptValidator.dialogueLengthIssues script.scenes ++
           ScriptValidator.durationIssues script)) := by
  unfold ScriptValidator.validate_for_production
  rcases hv : script.validate with ⟨b, e⟩
  cases b <;>
    refine ⟨fun hfail => ?_, fun hok => ?_⟩ <;> simp_all

set_option maxRecDepth 8000 in
/-- C5 amended, witness: instantiated at `c5script` (structural check passes),
the returned issues are exactly the accumulated dialogue and duration issues. -/
theorem C5_amended_witness :
    ScriptValidator.validate_for_production c5script =
      ((ScriptValidator.dialogueLengthIssues c5script.scenes ++
          ScriptValidator.durationIssues c5script).isEmpty,
       ScriptValidator.dialogueLengthIssues c5script.scenes ++
         ScriptValidator.durationIssues c5script) :=
  (C5_amended_short_circuit_only_structural c5script).2 (by
    rw [show c5script.validate = (true, none) by decide])

lemma totalEstimatedDuration_eq_zero {scenes : List Scene}
    (h : ∀ sc ∈ scenes, sc.estimated_duration_seconds = none ∨
      sc.estimated_duration_seconds = some 0) :
    ScriptValidator.totalEstimatedDuration scenes = 0 := by
  induction scenes with
  | nil => rfl
  | cons sc scs ih =>
    have hsc := h sc (by simp)
    have hrest := ih (fun x hx => h x (by simp [hx]))
    unfold ScriptValidator.totalEstimatedDuration at hrest ⊢
    rcases hsc with h0 | h0 <;> simp [h0, hrest]

/-- C9: when a script passes its structural self-check, no dialogue exceeds 50
words, and every scene's estimated duration is `None` or `0` (so the summed
duration is 0), `validate_for_production` returns `(true, [])` — the
aggregate-duration deviation check is skipped entirely because the guard
`total_duration > 0` is false, even though the total deviates 100% from any
target. -/
theorem C9_nonpositive_total_skips_duration_check (script : Script)
    (hval : script.validate = (true, none))
    (hwords : ∀ sc ∈ script.scenes, ∀ d ∈ sc.dialogues,
      (pySplitWords d.text).length ≤ 50)
    (hdur : ∀ sc ∈ script.scenes, sc.estimated_duration_seconds = none ∨
      sc.estimated_duration_seconds = some 0) :
    ScriptValidator.validate_for_production script = (true, []) := by
  unfold ScriptValidator.validate_for_production
  rw [hval]
  have hd : ScriptValidator.dialogueLengthIssues script.scenes = [] := by
    unfold ScriptValidator.dialogueLengthIssues
    rw [List.flatMap_eq_nil_iff]
    intro sc hsc
    rw [List.filterMap_eq_nil_iff]
    intro d hd
    rw [if_neg]
    simp only [not_lt]
    exact hwords sc hsc d hd
  have ht : ScriptValidator.durationIssues script = [] := by
    unfold ScriptValidator.durationIssues
    rw [totalEstimatedDuration_eq_zero hdur]
    simp
  simp [hd, ht]

/-- A minimal valid script with a short dialogue and no estimated durations. -/
def c9script : Script :=
  { title := "T", genre := "g", platform := .TIKTOK, target_duration_seconds := 60,
    target_audience := "a",
    characters := [{ name := "X" }],
    scenes := [{ scene_number := 1, location := "L", time_of_day := "DAY",
                 interior_exterior := "INT", description := "d",
                 dialogues := [{ character := "X", text := "hi" }],
                 estimated_duration_seconds := none, is_hook := true }] }

/-- C9 witness: `c9script` satisfies the three hypotheses and the validator
returns `(true, [])` despite the zero total duration against a 60s target. -/
theorem C9_witness : ScriptValidator.validate_for_production c9script = (true, []) :=
  C9_nonpositive_total_skips_duration_check c9script (by decide) (by decide) (by decide)

lemma addBeverages_count (ds : List Dialogue) : ∀ props : List ProductionElement,
    props.any (fun p => p.description == "Coffee cup") = false →
    ((BreakdownGenerator.addBeverages props ds).filter
        (fun p => p.description == "Beverage")).length =
      (props.filter (fun p => p.description == "Beverage")).length +
        ds.countP (fun d => strContains (pyLower d.text) "drink") := by
  induction ds with
  | nil => intro props h; simp [BreakdownGenerator.addBeverages]
  | cons d ds ih =>
    intro props h
    rw [BreakdownGenerator.addBeverages, List.countP_cons]
    by_cases hd : strContains (pyLower d.text) "drink"
    · have hguard : (strContains (pyLower d.text) "drink" &&
          !props.any (fun p => p.description == "Coffee cup")) = true := by
        rw [hd, h]; rfl
      rw [hguard]
      simp only [if_true]
      have hih := ih
        (props ++ [({ element_type := "prop", description := "Beverage", quantity := 1 } : ProductionElement)])
        (by rw [List.any_append, h]; rfl)
      rw [hih]
      simp [List.filter_append, hd]
      omega
    · have hd' : strContains (pyLower d.text) "drink" = false := by
        simpa using hd
      have hguard : (strContains (pyLower d.text) "drink" &&
          !props.any (fun p => p.description == "Coffee cup")) = false := by
        rw [hd']; rfl
      rw [hguard]
      rw [if_neg (by simp)]
      rw [ih props h, hd']
      simp

lemma mem_if_singleton {α : Type} {c : Bool} {x p : α}
    (h : p ∈ (if c = true then [x] else [])) : p = x := by
  split at h
  · simpa using h
  · simp at h

lemma descriptionProps_no_coffee {scene : Scene}
    (h1 : strContains (pyLower scene.description) "coffee" = false)
    (h2 : strContains (pyLower scene.description) "cup" = false) :
    ∀ p ∈ BreakdownGenerator.descriptionProps scene,
      p.description ≠ "Coffee cup" ∧ p.description ≠ "Beverage" := by
  intro p hp
  unfold BreakdownGenerator.descriptionProps at hp
  simp [h1, h2] at hp
  rcases hp with hp | hp | hp | hp <;> simp_all

/-- C10: `_extract_props`'s "drink" guard only checks for an existing
"Coffee cup" prop, never for an existing "Beverage": for every scene whose
description (lower-cased) contains neither "coffee" nor "cup", the generated
props contain exactly one "Beverage" element per dialogue line whose text
contains "drink" — so two or more such lines yield duplicate Beverage props. -/
theorem C10_beverage_per_drink_line (scene : Scene)
    (h1 : strContains (pyLower scene.description) "coffee" = false)
    (h2 : strContains (pyLower scene.description) "cup" = false) :
    ((BreakdownGenerator.extract_props scene).filter
        (fun p => p.description == "Beverage")).length =
      scene.dialogues.countP (fun d => strContains (pyLower d.text) "drink") := by
  unfold BreakdownGenerator.extract_props
  have hno := descriptionProps_no_coffee h1 h2
  have hany : (BreakdownGenerator.descriptionProps scene).any
      (fun p => p.description == "Coffee cup") = false := by
    rw [List.any_eq_false]
    intro p hp
    simpa using (hno p hp).1
  rw [addBeverages_count scene.dialogues (BreakdownGenerator.descriptionProps scene) hany]
  have hfil : (BreakdownGenerator.descriptionProps scene).filter
      (fun p => p.description == "Beverage") = [] := by
    rw [List.filter_eq_nil_iff]
    intro p hp
    simpa using (hno p hp).2
  rw [hfil]
  simp

/-- A scene whose description has no coffee/cup keyword and with two dialogue
lines mentioning "drink". -/
def c10scene : Scene :=
  { scene_number := 1, location := "L", time_of_day := "DAY", interior_exterior := "INT",
    description := "A quiet room",
    dialogues := [{ character := "X", text := "Want a drink?" },
                  { character := "Y", text := "Another drink!" }] }

/-- C10 witness: on `c10scene` the hypotheses hold and the extracted props
contain exactly two "Beverage" elements. -/
theorem C10_witness :
    ((BreakdownGenerator.extract_props c10scene).filter
        (fun p => p.description == "Beverage")).length = 2 :=
  (C10_beverage_per_drink_line c10scene (by decide) (by decide)).trans (by decide)

lemma jumpCutScan_mem {a b : Shot} (post : List Shot)
    (hscene : a.scene_number = b.scene_number) (hsize : a.shot_size = b.shot_size)
    (hpos : a.camera_position = b.camera_position) :
    ∀ (pre : List Shot) (prev : Option Shot),
      ("Shots " ++ a.shot_id ++ " and " ++ b.shot_id ++
        ": Potential jump cut (same size and position)") ∈
        ContinuityChecker.jumpCutScan prev (pre ++ a :: b :: post) := by
  intro pre
  induction pre with
  | nil =>
    intro prev
    rw [List.nil_append]
    simp only [ContinuityChecker.jumpCutScan, List.mem_append]
    right; left
    rw [if_pos ⟨hscene, hsize, hpos⟩]
    simp
  | cons x xs ih =>
    intro prev
    rw [List.cons_append]
    simp only [ContinuityChecker.jumpCutScan, List.mem_append]
    right
    have := ih (some x)
    simp only [ContinuityChecker.jumpCutScan, List.mem_append] at this
    exact this

/-- C8: for every storyboard that passes its own self-validation and contains
two consecutive shots with the same scene number, the same shot size and an
identical camera-position string, `check_continuity` returns `is_valid = false`
and its issue list contains the "Potential jump cut" issue naming those two
shots (for any script it is checked against). -/
theorem C8_consecutive_identical_shots_flag_jump_cut (sb : Storyboard) (script : Script)
    (hval : sb.validate = (true, none)) (pre post : List Shot) (a b : Shot)
    (hshots : sb.shots = pre ++ a :: b :: post)
    (hscene : a.scene_number = b.scene_number) (hsize : a.shot_size = b.shot_size)
    (hpos : a.camera_position = b.camera_position) :
    (ContinuityChecker.check_continuity sb script).1 = false ∧
      ("Shots " ++ a.shot_id ++ " and " ++ b.shot_id ++
        ": Potential jump cut (same size and position)") ∈
        (ContinuityChecker.check_continuity sb script).2 := by
  have hmem : ("Shots " ++ a.shot_id ++ " and " ++ b.shot_id ++
      ": Potential jump cut (same size and position)") ∈
      (ContinuityChecker.sceneExistenceIssues (pySetList (script.scenes.map Scene.scene_number))
        sb.shots ++
      ContinuityChecker.jumpCutScan none sb.shots ++
      ContinuityChecker.durationIssues sb ++
      ContinuityChecker.coverageIssues script.scenes sb.shots) := by
    rw [List.mem_append, List.mem_append, List.mem_append]
    left; left; right
    rw [hshots]
    exact jumpCutScan_mem post hscene hsize hpos pre none
  unfold ContinuityChecker.check_continuity
  rw [hval]
  refine ⟨?_, hmem⟩
  have hne := List.ne_nil_of_mem hmem
  simpa [List.isEmpty_iff] using hne

/-- Two identical consecutive shots in scene 1 (same MS size, same camera
position), total duration exactly the 30s target so self-validation passes. -/
def c8storyboard : Storyboard :=
  { script_title := "T", target_duration_seconds := 30,
    shots := [{ shot_id := "1A", scene_number := 1, shot_size := ShotSize.MEDIUM,
                camera_position := "P", camera_movement := CameraMovement.STATIC,
                visual_description := "v", suggested_duration_seconds := 15 },
              { shot_id := "1B", scene_number := 1, shot_size := ShotSize.MEDIUM,
                camera_position := "P", camera_movement := CameraMovement.STATIC,
                visual_description := "w", suggested_duration_seconds := 15 }] }

/-- A minimal script for the continuity check of the C8 witness. -/
def c8script : Script :=
  { title := "T", genre := "g", platform := .TIKTOK, target_duration_seconds := 30,
    target_audience := "a",
    characters := [{ name := "X" }],
    scenes := [{ scene_number := 1, location := "L", time_of_day := "DAY",
                 interior_exterior := "INT", description := "d",
                 dialogues := [{ character := "X", text := "hi" }],
                 estimated_duration_seconds := some 30, is_hook := true }] }

lemma c8storyboard_validate : c8storyboard.validate = (true, none) := by
  unfold Storyboard.validate
  rw [if_neg (by decide), if_neg (by decide),
    show Storyboard.shotsError c8storyboard.shots = none from by decide,
    if_neg (by decide)]
  rw [if_neg]
  rw [show c8storyboard.get_total_duration = 30 from by decide]
  rw [pyDeviation_gt_point2_iff (by decide)]
  decide

/-- C8 witness: on `c8storyboard` (which passes self-validation) and
`c8script`, the continuity check fails and reports the jump cut between shots
1A and 1B. -/
theorem C8_witness :
    (ContinuityChecker.check_continuity c8storyboard c8script).1 = false ∧
      ("Shots " ++ "1A" ++ " and " ++ "1B" ++
        ": Potential jump cut (same size and position)") ∈
        (ContinuityChecker.check_continuity c8storyboard c8script).2 :=
  C8_consecutive_identical_shots_flag_jump_cut c8storyboard c8script c8storyboard_validate
    [] [] _ _ rfl rfl rfl rfl

lemma scene_validate_parts {sc : Scene} (h : sc.validate = (true, none)) :
    ¬sc.scene_number < 1 ∧ strBlank sc.location = false := by
  unfold Scene.validate at h
  split_ifs at h with h1 h2 h3 h4 <;> simp_all

lemma Script.scenesError_none {scenes : List Scene}
    (h : Script.scenesError scenes = none) :
    ∀ sc ∈ scenes, sc.validate.1 = true := by
  induction scenes with
  | nil => simp
  | cons sc scs ih =>
    intro x hx
    rw [Script.scenesError] at h
    rcases hv : sc.validate with ⟨b, e⟩
    rw [hv] at h
    cases b
    · simp at h
    · rcases List.mem_cons.mp hx with hx | hx
      · rw [hx, hv]
      · exact ih h x hx

lemma Scene.validate_of_fst {sc : Scene} (h : sc.validate.1 = true) :
    sc.validate = (true, none) := by
  unfold Scene.validate at h ⊢
  split_ifs at h ⊢ <;> simp_all
  rcases hd : Scene.dialoguesError sc.scene_number sc.dialogues with _ | e <;>
    simp [hd] <;> simp [hd] at h

lemma Script.dialogueCharsError_none {names : List String} {scenes : List Scene}
    (h : Script.dialogueCharsError names scenes = none) :
    ∀ sc ∈ scenes, ∀ d ∈ sc.dialogues, names.contains d.character = true := by
  induction scenes with
  | nil => simp
  | cons sc scs ih =>
    intro x hx d hd
    rw [Script.dialogueCharsError] at h
    rcases hf : sc.dialogues.find? (fun d => !names.contains d.character) with _ | d0
    · rw [hf] at h
      rcases List.mem_cons.mp hx with hx | hx
      · subst hx
        have := List.find?_eq_none.mp hf d hd
        simpa using this
      · exact ih h x hx d hd
    · rw [hf] at h
      simp at h

lemma script_validate_parts {s : Script} (h : s.validate = (true, none)) :
    strBlank s.title = false ∧
    Script.scenesError s.scenes = none ∧
    Script.dialogueCharsError (s.characters.map Character.name) s.scenes = none := by
  unfold Script.validate at h
  split_ifs at h with h1 h2 h3 h4 h5 h6 <;> try simp_all
  rcases hc : Script.charactersError s.characters with _ | e <;> rw [hc] at h <;>
    try simp at h
  rcases hs : Script.scenesError s.scenes with _ | e <;> rw [hs] at h <;> try simp at h
  rcases hd : Script.dialogueCharsError (s.characters.map Character.name) s.scenes with _ | e <;>
    rw [hd] at h <;> simp_all

lemma pySetListAux_subset {α : Type} [DecidableEq α] :
    ∀ {l seen : List α} {x : α}, x ∈ pySetListAux seen l → x ∈ l := by
  intro l
  induction l with
  | nil => intro seen x hx; simp [pySetListAux] at hx
  | cons y ys ih =>
    intro seen x hx
    rw [pySetListAux] at hx
    split at hx
    · exact List.mem_cons_of_mem y (ih hx)
    · rcases List.mem_cons.mp hx with hx | hx
      · exact hx ▸ List.mem_cons_self y ys
      · exact List.mem_cons_of_mem y (ih hx)

lemma pySetList_ne_nil {α : Type} [DecidableEq α] {l : List α} (h : l ≠ []) :
    pySetList l ≠ [] := by
  rcases l with _ | ⟨x, xs⟩
  · exact absurd rfl h
  · unfold pySetList pySetListAux
    rw [if_neg (by simp)]
    simp

lemma create_entry_ok {scene : Scene} {e : BreakdownEntry}
    (h : BreakdownGenerator.create_breakdown_entry scene = .ok e) :
    e.scene_number = scene.scene_number ∧ e.scene_description = scene.description ∧
    e.location = scene.location ∧
    e.characters = pySetList (scene.dialogues.map Dialogue.character) ∧
    e.wardrobe = BreakdownGenerator.extract_wardrobe scene
      (pySetList (scene.dialogues.map Dialogue.character)) := by
  unfold BreakdownGenerator.create_breakdown_entry at h
  split at h <;> simp_all
  subst h
  simp

lemma generateEntries_ok :
    ∀ {scenes : List Scene} {entries : List BreakdownEntry},
      BreakdownGenerator.generateEntries scenes = .ok entries →
      entries.length = scenes.length ∧
      (∀ e ∈ entries, ∃ sc ∈ scenes, BreakdownGenerator.create_breakdown_entry sc = .ok e) ∧
      entries.map BreakdownEntry.scene_number = scenes.map Scene.scene_number := by
  intro scenes
  induction scenes with
  | nil =>
    intro entries h
    rw [BreakdownGenerator.generateEntries] at h
    cases h
    simp
  | cons sc scs ih =>
    intro entries h
    rw [BreakdownGenerator.generateEntries] at h
    rcases hc : BreakdownGenerator.create_breakdown_entry sc with e | entry <;> rw [hc] at h
    · simp at h
    · rcases hg : BreakdownGenerator.generateEntries scs with e | rest <;> rw [hg] at h
      · simp at h
      · cases h
        obtain ⟨hlen, hmem, hmap⟩ := ih hg
        refine ⟨by simp [hlen], ?_, ?_⟩
        · intro x hx
          rcases List.mem_cons.mp hx with hx | hx
          · exact ⟨sc, by simp, hx ▸ hc⟩
          · obtain ⟨sc', hsc', hcr⟩ := hmem x hx
            exact ⟨sc', List.mem_cons_of_mem _ hsc', hcr⟩
        · simp [hmap, (create_entry_ok hc).1]

lemma breakdownEntry_validate_true {e : BreakdownEntry} (h1 : ¬e.scene_number < 1)
    (h2 : strBlank e.location = false) (h3 : strBlank e.scene_description = false)
    (h4 : e.characters ≠ []) : e.validate = (true, none) := by
  unfold BreakdownEntry.validate
  rw [if_neg (by simp [h1]), if_neg (by simp [h2]), if_neg (by simp [h3]),
    if_neg (by simp [List.isEmpty_iff, h4])]

lemma Breakdown.entriesError_none {entries : List BreakdownEntry}
    (h : ∀ e ∈ entries, e.validate = (true, none)) :
    Breakdown.entriesError entries = none := by
  induction entries with
  | nil => rfl
  | cons e es ih =>
    rw [Breakdown.entriesError, h e (by simp)]
    exact ih (fun x hx => h x (List.mem_cons_of_mem e hx))

lemma dropLast_map {α β : Type} (f : α → β) :
    ∀ l : List α, l.dropLast.map f = (l.map f).dropLast := by
  intro l
  induction l with
  | nil => rfl
  | cons x xs ih =>
    cases xs with
    | nil => rfl
    | cons y ys => simp [List.dropLast_cons₂, ih]

lemma contains_of_mem {x : Int} {l : List Int} (h : x ∈ l) : l.contains x = true := by
  simpa [List.contains] using h

lemma not_contains_of_not_mem {x : Int} {l : List Int} (h : x ∉ l) :
    l.contains x = false := by
  simp [List.contains]
  simpa using h

/-- C7 amended: for a Breakdown generated from a valid Script whose scenes are
numbered exactly 1..N in order, each with at least one dialogue line and a
non-blank description (N ≥ 2), removing the last BreakdownEntry makes
`validate_against_script` return `is_valid = false` with an issue reporting the
missing scene number N. -/
theorem C7_missing_last_entry_reported (script : Script) (bd : Breakdown)
    (hval : script.validate = (true, none))
    (hnum : script.scenes.map Scene.scene_number = seqFrom 1 script.scenes.length)
    (hN : 2 ≤ script.scenes.length)
    (hdia : ∀ sc ∈ script.scenes, sc.dialogues ≠ [])
    (hdesc : ∀ sc ∈ script.scenes, strBlank sc.description = false)
    (hbd : BreakdownGenerator.generate script = .ok bd) :
    (BreakdownValidator.validate_against_script
        { script_title := bd.script_title, entries := bd.entries.dropLast } script).1 =
      false ∧
    ("Missing breakdown entries for scenes: " ++
        pyIntListRepr [(script.scenes.length : Int)]) ∈
      (BreakdownValidator.validate_against_script
        { script_title := bd.script_title, entries := bd.entries.dropLast } script).2 := by
  obtain ⟨htitle, hscerr, hdcerr⟩ := script_validate_parts hval
  -- decompose the generated breakdown
  unfold BreakdownGenerator.generate at hbd
  rw [hval] at hbd
  rcases hge : BreakdownGenerator.generateEntries script.scenes with e | entries <;>
    rw [hge] at hbd
  · simp at hbd
  have hbd' : bd = { script_title := script.title, entries := entries } := by
    cases hbd; rfl
  subst hbd'
  obtain ⟨hlen, hmem, hmap⟩ := generateEntries_ok hge
  set N := script.scenes.length with hNdef
  have hNM : N = (N - 1) + 1 := by omega
  set M := N - 1 with hMdef
  -- scene numbers of the generated entries and of the truncated list
  have hnums : entries.map BreakdownEntry.scene_number = seqFrom 1 N := by
    rw [hmap, hnum]
  have htruncnums : entries.dropLast.map BreakdownEntry.scene_number = seqFrom 1 M := by
    rw [dropLast_map, hnums, hNM, seqFrom_succ_last, List.dropLast_concat]
  have htrunclen : entries.dropLast.length = M := by
    have := congrArg List.length htruncnums
    simpa [seqFrom_length] using this
  -- every surviving entry is valid
  have hescene := Script.scenesError_none hscerr
  have hentry_valid : ∀ e ∈ entries.dropLast, e.validate = (true, none) := by
    intro e he
    obtain ⟨sc, hsc, hcr⟩ := hmem e ((List.dropLast_sublist entries).subset he)
    obtain ⟨hn, hd1, hl, hchars, hward⟩ := create_entry_ok hcr
    obtain ⟨hpos, hloc⟩ := scene_validate_parts (Scene.validate_of_fst (hescene sc hsc))
    refine breakdownEntry_validate_true (by rw [hn]; exact hpos) (by rw [hl]; exact hloc)
      (by rw [hd1]; exact hdesc sc hsc) ?_
    rw [hchars]
    exact pySetList_ne_nil (by simp [hdia sc hsc])
  -- the truncated breakdown passes its own self-check
  show (BreakdownValidator.validate_against_script
      { script_title := script.title, entries := entries.dropLast } script).1 = false ∧ _ ∈
    (BreakdownValidator.validate_against_script
      { script_title := script.title, entries := entries.dropLast } script).2
  have htv : Breakdown.validate
      { script_title := script.title, entries := entries.dropLast } = (true, none) := by
    unfold Breakdown.validate
    dsimp only
    rw [if_neg (by simp [htitle])]
    rw [if_neg ?hne]
    case hne =>
      simp only [List.isEmpty_iff]
      intro hnil
      rw [hnil] at htrunclen
      simp at htrunclen
      omega
    rw [Breakdown.entriesError_none hentry_valid]
    simp only [htruncnums]
    rw [if_neg (by rw [pySetList_eq_self (seqFrom_nodup 1 M)]; simp), if_neg ?hseq]
    case hseq =>
      rw [pySorted_seqFrom, seqFrom_length]
      simp
  -- now evaluate the cross-validation
  unfold BreakdownValidator.validate_against_script
  rw [htv]
  dsimp only
  have hcount : entries.dropLast.length ≠ script.scenes.length := by
    rw [htrunclen, ← hNdef]
    omega
  have hmissing :
      (pySetList (script.scenes.map Scene.scene_number)).filter
        (fun n => !((pySetList
          (entries.dropLast.map BreakdownEntry.scene_number)).contains n)) =
      [1 + (M : Int)] := by
    rw [htruncnums, hnum]
    rw [pySetList_eq_self (seqFrom_nodup 1 M), pySetList_eq_self (seqFrom_nodup 1 N)]
    rw [hNM, seqFrom_succ_last, List.filter_append]
    have h1 : (seqFrom 1 M).filter (fun n => !((seqFrom 1 M).contains n)) = [] := by
      rw [List.filter_eq_nil_iff]
      intro a ha
      rw [contains_of_mem ha]
      simp
    have h2 : ([1 + (M : Int)]).filter (fun n => !((seqFrom 1 M).contains n)) =
        [1 + (M : Int)] := by
      rw [List.filter_eq_self]
      intro a ha
      rw [List.mem_singleton] at ha
      subst ha
      rw [not_contains_of_not_mem]
      · simp
      · rw [mem_seqFrom]
        omega
    rw [h1, h2, List.nil_append]
  have hextra :
      (pySetList (entries.dropLast.map BreakdownEntry.scene_number)).filter
        (fun n => !((pySetList (script.scenes.map Scene.scene_number)).contains n)) = [] := by
    rw [htruncnums, hnum]
    rw [pySetList_eq_self (seqFrom_nodup 1 M), pySetList_eq_self (seqFrom_nodup 1 N)]
    rw [List.filter_eq_nil_iff]
    intro a ha
    rw [mem_seqFrom] at ha
    rw [contains_of_mem (by rw [mem_seqFrom]; omega)]
    simp
  have hchar : BreakdownValidator.characterIssues (script.characters.map Character.name)
      entries.dropLast = [] := by
    unfold BreakdownValidator.characterIssues
    rw [List.flatMap_eq_nil_iff]
    intro e he
    rw [List.filterMap_eq_nil_iff]
    intro ch hch
    obtain ⟨sc, hsc, hcr⟩ := hmem e ((List.dropLast_sublist entries).subset he)
    obtain ⟨-, -, -, hchars, -⟩ := create_entry_ok hcr
    rw [hchars] at hch
    have hmemch := pySetListAux_subset hch
    rw [List.mem_map] at hmemch
    obtain ⟨d, hd, hdc⟩ := hmemch
    have hc : (script.characters.map Character.name).contains ch = true := by
      rw [← hdc]
      exact Script.dialogueCharsError_none hdcerr sc hsc d hd
    rw [if_neg (by rw [hc]; simp)]
  have hcrit : BreakdownValidator.criticalIssues entries.dropLast = [] := by
    unfold BreakdownValidator.criticalIssues
    rw [List.flatMap_eq_nil_iff]
    intro e he
    obtain ⟨sc, hsc, hcr⟩ := hmem e ((List.dropLast_sublist entries).subset he)
    obtain ⟨-, -, -, hchars, hward⟩ := create_entry_ok hcr
    have hchne : e.characters ≠ [] := by
      rw [hchars]
      exact pySetList_ne_nil (by simp [hdia sc hsc])
    have hwne : e.wardrobe ≠ [] := by
      rw [hward]
      unfold BreakdownGenerator.extract_wardrobe
      intro hcon
      rcases List.append_eq_nil.mp hcon with ⟨h1, -⟩
      rcases List.append_eq_nil.mp h1 with ⟨h2, -⟩
      rw [List.map_eq_nil] at h2
      exact pySetList_ne_nil (by simp [hdia sc hsc]) h2
    rw [if_neg (by simp [List.isEmpty_iff, hchne]),
      if_neg (by simp [List.isEmpty_iff, hwne])]
    simp
  rw [if_pos hcount]
  rw [hmissing, hextra, hchar, hcrit]
  rw [if_pos (by simp), if_neg (by simp)]
  have hNint : (1 : Int) + (M : Int) = (N : Int) := by
    push_cast
    omega
  constructor
  · simp
  · rw [List.append_nil, List.append_nil, List.append_nil]
    rw [show pySorted [1 + (M : Int)] = [1 + (M : Int)] from rfl]
    rw [hNint]
    simp

/-- A valid two-scene script whose FIRST scene has an empty description:
`Scene.validate` never checks descriptions, but `BreakdownEntry.validate` does,
so the truncated breakdown fails its self-check before any missing-scene
comparison happens. -/
def c7script : Script :=
  { title := "T", genre := "g", platform := .TIKTOK, target_duration_seconds := 30,
    target_audience := "a",
    characters := [{ name := "X" }],
    scenes := [{ scene_number := 1, location := "L1", time_of_day := "DAY",
                 interior_exterior := "INT", description := "",
                 dialogues := [{ character := "X", text := "hi" }],
                 estimated_duration_seconds := some 5, is_hook := true },
               { scene_number := 2, location := "L2", time_of_day := "DAY",
                 interior_exterior := "INT", description := "ok",
                 dialogues := [{ character := "X", text := "yo" }],
                 estimated_duration_seconds := some 25 }] }

/-- The breakdown generated from `c7script` with its last entry removed. -/
def c7truncated : Breakdown :=
  match BreakdownGenerator.generate c7script with
  | .ok bd => { script_title := bd.script_title, entries := bd.entries.dropLast }
  | .error _ => { script_title := "", entries := [] }

/-- C7 counterexample: `c7script` is a valid script with two scenes and the
breakdown generator succeeds on it, yet after removing the last entry
`validate_against_script` reports only "Scene description cannot be empty" —
no issue reporting the missing scene number 2 appears, because the truncated
breakdown already fails its own self-check. -/
theorem C7_counterexample :
    c7script.validate = (true, none) ∧
    (BreakdownGenerator.generate c7script).toOption.isSome = true ∧
    BreakdownValidator.validate_against_script c7truncated c7script =
      (false, ["Scene description cannot be empty"]) ∧
    ¬ (("Missing breakdown entries for scenes: " ++ pyIntListRepr [(2 : Int)]) ∈
      (BreakdownValidator.validate_against_script c7truncated c7script).2) := by
  refine ⟨by decide, by decide, by decide, by decide⟩

/-- A valid two-scene script meeting every hypothesis of the amended C7: scenes
numbered 1..2, each with a dialogue line and a non-blank description. -/
def c7good : Script :=
  { title := "T", genre := "g", platform := .TIKTOK, target_duration_seconds := 30,
    target_audience := "a",
    characters := [{ name := "X" }],
    scenes := [{ scene_number := 1, location := "L1", time_of_day := "DAY",
                 interior_exterior := "INT", description := "d1",
                 dialogues := [{ character := "X", text := "hi" }],
                 estimated_duration_seconds := some 5, is_hook := true },
               { scene_number := 2, location := "L2", time_of_day := "DAY",
                 interior_exterior := "INT", description := "d2",
                 dialogues := [{ character := "X", text := "yo" }],
                 estimated_duration_seconds := some 25 }] }

/-- The breakdown generated from `c7good`. -/
def c7goodbd : Breakdown :=
  (BreakdownGenerator.generate c7good).toOption.getD { script_title := "", entries := [] }

/-- C7 amended, witness: on `c7good`, removing the last generated entry makes
the validator fail with the missing-scene issue for scene 2. -/
theorem C7_witness :
    (BreakdownValidator.validate_against_script
        { script_title := c7goodbd.script_title, entries := c7goodbd.entries.dropLast }
        c7good).1 = false ∧
    ("Missing breakdown entries for scenes: " ++
        pyIntListRepr [(c7good.scenes.length : Int)]) ∈
      (BreakdownValidator.validate_against_script
        { script_title := c7goodbd.script_title, entries := c7goodbd.entries.dropLast }
        c7good).2 :=
  C7_missing_last_entry_reported c7good c7goodbd (by decide) (by decide) (by decide)
    (by decide) (by decide) rfl

lemma generate_characters_spec (g a : String) :
    Script.charactersError (ScriptGenerator.generate_characters g a) = none ∧
    ScriptGenerator.generate_characters g a ≠ [] := by
  unfold ScriptGenerator.generate_characters
  dsimp only
  split_ifs <;> exact ⟨by decide, by decide⟩

lemma char1_spec (g a : String) :
    strBlank (match ScriptGenerator.generate_characters g a with
      | c :: _ => c.name
      | [] => "Character") = false ∧
    ((ScriptGenerator.generate_characters g a).map Character.name).contains
      (match ScriptGenerator.generate_characters g a with
        | c :: _ => c.name
        | [] => "Character") = true := by
  unfold ScriptGenerator.generate_characters
  dsimp only
  split_ifs <;> exact ⟨by decide, by decide⟩

lemma generate_hook_spec (g c : String) :
    strBlank (ScriptGenerator.generate_hook g c).1 = false ∧
    ¬(ScriptGenerator.generate_hook g c).1.length > 500 ∧
    (pySplitWords (ScriptGenerator.generate_hook g c).1).length ≤ 50 := by
  unfold ScriptGenerator.generate_hook
  split_ifs <;> exact ⟨by decide, by decide, by decide⟩

lemma generate_development_spec (g c : String) (c2 : Option String) :
    strBlank (ScriptGenerator.generate_development g c c2).1 = false ∧
    ¬(ScriptGenerator.generate_development g c c2).1.length > 500 ∧
    (pySplitWords (ScriptGenerator.generate_development g c c2).1).length ≤ 50 := by
  unfold ScriptGenerator.generate_development
  split_ifs <;> exact ⟨by decide, by decide, by decide⟩

lemma generate_resolution_spec (g c : String) (c2 : Option String) :
    strBlank (ScriptGenerator.generate_resolution g c c2).1 = false ∧
    ¬(ScriptGenerator.generate_resolution g c c2).1.length > 500 ∧
    (pySplitWords (ScriptGenerator.generate_resolution g c c2).1).length ≤ 50 := by
  unfold ScriptGenerator.generate_resolution
  split_ifs <;> exact ⟨by decide, by decide, by decide⟩

lemma getD_lookup_nonblank (st : String) (d : String) (hd : strBlank d = false) :
    ∀ l : List (String × String), (∀ p ∈ l, strBlank p.2 = false) →
      strBlank ((l.lookup st).getD d) = false := by
  intro l
  induction l with
  | nil => intro _; simpa [List.lookup]
  | cons p ps ih =>
    intro hl
    obtain ⟨k, v⟩ := p
    rw [List.lookup]
    split
    · simpa using hl (k, v) (by simp)
    · exact ih (fun q hq => hl q (List.mem_cons_of_mem _ hq))

lemma get_location_nonblank (g st : String) :
    strBlank (ScriptGenerator.get_location_for_genre g st) = false := by
  unfold ScriptGenerator.get_location_for_genre
  split_ifs <;>
    first
      | exact getD_lookup_nonblank st _ (by decide) _ (by decide)
      | (rw [strBlank_append]
         rw [show strBlank "Location - " = false from by decide]
         rfl)

lemma get_scene_description_nonblank (g st : String) :
    strBlank (ScriptGenerator.get_scene_description g st) = false := by
  unfold ScriptGenerator.get_scene_description
  rcases h : sceneDescriptionTable.find? (fun kv => strContains g kv.1) with _ | kv <;> rw [h]
  · exact getD_lookup_nonblank st _ (by decide) _ (by decide)
  · have hm := List.mem_of_find?_eq_some h
    fin_cases hm <;> exact getD_lookup_nonblank st _ (by decide) _ (by decide)

lemma dialoguesError_single {n : Int} {d : Dialogue} (h1 : strBlank d.character = false)
    (h2 : strBlank d.text = false) (h3 : ¬d.text.length > 500) :
    Scene.dialoguesError n [d] = none := by
  have hv : d.validate = (true, none) := by
    unfold Dialogue.validate
    rw [if_neg (by simp [h1]), if_neg (by simp [h2]), if_neg h3]
  simp only [Scene.dialoguesError, hv]

lemma generated_scene_valid {n : Int} (hn : ¬n < 1) {loc : String}
    (hloc : strBlank loc = false) (desc : String) {d : Dialogue}
    (hd1 : strBlank d.character = false) (hd2 : strBlank d.text = false)
    (hd3 : ¬d.text.length > 500) (est : Option Int) (hk : Bool) :
    Scene.validate
      { scene_number := n, location := loc, time_of_day := "DAY",
        interior_exterior := "INT", description := desc, dialogues := [d],
        estimated_duration_seconds := est, is_hook := hk } = (true, none) := by
  unfold Scene.validate
  rw [if_neg (by simpa using hn), if_neg (by simp [hloc]), if_neg (by simp),
    if_neg (by simp)]
  rw [dialoguesError_single hd1 hd2 hd3]

lemma hook_text_nonblank (g c : String) :
    strBlank (ScriptGenerator.generate_hook g c).1 = false := (generate_hook_spec g c).1

lemma hook_text_len (g c : String) : ¬(ScriptGenerator.generate_hook g c).1.length > 500 :=
  (generate_hook_spec g c).2.1

lemma dev_text_nonblank (g c : String) (c2 : Option String) :
    strBlank (ScriptGenerator.generate_development g c c2).1 = false :=
  (generate_development_spec g c c2).1

lemma dev_text_len (g c : String) (c2 : Option String) :
    ¬(ScriptGenerator.generate_development g c c2).1.length > 500 :=
  (generate_development_spec g c c2).2.1

lemma res_text_nonblank (g c : String) (c2 : Option String) :
    strBlank (ScriptGenerator.generate_resolution g c c2).1 = false :=
  (generate_resolution_spec g c c2).1

lemma res_text_len (g c : String) (c2 : Option String) :
    ¬(ScriptGenerator.generate_resolution g c c2).1.length > 500 :=
  (generate_resolution_spec g c c2).2.1

lemma char1_nonblank (g a : String) :
    strBlank (match ScriptGenerator.generate_characters g a with
      | c :: _ => c.name
      | [] => "Character") = false := (char1_spec g a).1

lemma char1_contains (g a : String) :
    ((ScriptGenerator.generate_characters g a).map Character.name).contains
      (match ScriptGenerator.generate_characters g a with
        | c :: _ => c.name
        | [] => "Character") = true := (char1_spec g a).2

lemma dialogueCharsError_generated {names : List String} :
    ∀ {scenes : List Scene},
      (∀ sc ∈ scenes, ∀ d ∈ sc.dialogues, names.contains d.character = true) →
      Script.dialogueCharsError names scenes = none := by
  intro scenes
  induction scenes with
  | nil => intro _; rfl
  | cons sc rest ih =>
    intro h
    have hf : sc.dialogues.find? (fun d => !names.contains d.character) = none := by
      rw [List.find?_eq_none]
      intro d hd
      simp only [h sc (by simp) d hd, Bool.not_true]
      simp
    simp only [Script.dialogueCharsError, hf]
    exact ih (fun x hx d hd => h x (by simp [hx]) d hd)

lemma generated_script_validates (title genre : String) (platform : Platform) (t : Int)
    (aud : String) (concept : Option String)
    (ht : strBlank title = false) (hg : strBlank genre = false) (ha : strBlank aud = false)
    (h30 : 30 ≤ t) (h120 : t ≤ 120) :
    (ScriptGenerator.generate title genre platform t aud concept).validate = (true, none) := by
  obtain ⟨hce, -⟩ := generate_characters_spec genre aud
  unfold ScriptGenerator.generate ScriptGenerator.generate_scenes
  dsimp only
  unfold Script.validate
  dsimp only
  by_cases h45 : t ≥ 45
  · rw [if_pos h45]
    rw [if_neg (by simp [ht]), if_neg (by simp [hg]), if_neg (by simp [h30, h120]),
      if_neg (by simp [ha]), if_neg (by simp), if_neg (by simp), hce]
    rw [dialogueCharsError_generated (by
      intro sc hsc d hd
      simp only [List.mem_cons, List.not_mem_nil, or_false] at hsc
      rcases hsc with rfl | rfl | rfl <;>
        (simp only [List.mem_cons, List.not_mem_nil, or_false] at hd
         subst hd
         exact char1_contains genre aud))]
    simp [Script.scenesError, Scene.validate, Scene.dialoguesError, Dialogue.validate,
      char1_nonblank, hook_text_nonblank, hook_text_len, dev_text_nonblank, dev_text_len,
      res_text_nonblank, res_text_len, get_location_nonblank]
  · rw [if_neg h45]
    rw [if_neg (by simp [ht]), if_neg (by simp [hg]), if_neg (by simp [h30, h120]),
      if_neg (by simp [ha]), if_neg (by simp), if_neg (by simp), hce]
    rw [dialogueCharsError_generated (by
      intro sc hsc d hd
      simp only [List.mem_cons, List.not_mem_nil, or_false] at hsc
      rcases hsc with rfl | rfl <;>
        (simp only [List.mem_cons, List.not_mem_nil, or_false] at hd
         subst hd
         exact char1_contains genre aud))]
    simp [Script.scenesError, Scene.validate, Scene.dialoguesError, Dialogue.validate,
      char1_nonblank, hook_text_nonblank, hook_text_len, dev_text_nonblank, dev_text_len,
      res_text_nonblank, res_text_len, get_location_nonblank]

lemma generateEntries_generated (genre : String) (t : Int) (chars : List Character)
    (concept : Option String) :
    ∃ es, BreakdownGenerator.generateEntries
      (ScriptGenerator.generate_scenes genre t chars concept) = .ok es := by
  unfold ScriptGenerator.generate_scenes
  dsimp only
  by_cases h45 : t ≥ 45 <;> [rw [if_pos h45]; rw [if_neg h45]] <;> exact ⟨_, rfl⟩

/-- C3 counterexample: all inputs are non-empty strings and the target duration
is in [30,120], yet the generated Script fails `Script.validate` — because the
validator rejects whitespace-only ("blank") strings, not just empty ones.
"Non-empty" in the claim is therefore too weak. -/
theorem C3_counterexample :
    " " ≠ "" ∧ "g" ≠ "" ∧ "a" ≠ "" ∧ (30 : Int) ≤ 60 ∧ (60 : Int) ≤ 120 ∧
    (ScriptGenerator.generate " " "g" Platform.TIKTOK 60 "a" none).validate =
      (false, some "Title cannot be empty") := by
  refine ⟨by decide, by decide, by decide, by decide, by decide, by decide⟩

/-- C3 amended: `ScriptGenerator.generate` is a total function (it has no
failure channel), and for every input whose title, genre and target audience
are non-blank (they contain at least one non-whitespace character) with a
target duration in [30,120], the generated Script satisfies
`Script.validate = (True, None)`; consequently `BreakdownGenerator.generate`,
whose error branch fires exactly when its input Script fails self-validation,
succeeds on such a generated Script. -/
theorem C3_generated_script_valid_and_breakdown_succeeds (title genre : String)
    (platform : Platform) (t : Int) (aud : String) (concept : Option String)
    (ht : strBlank title = false) (hg : strBlank genre = false)
    (ha : strBlank aud = false) (h30 : 30 ≤ t) (h120 : t ≤ 120) :
    (ScriptGenerator.generate title genre platform t aud concept).validate = (true, none) ∧
    ∃ bd, BreakdownGenerator.generate
      (ScriptGenerator.generate title genre platform t aud concept) = Except.ok bd := by
  have hval := generated_script_validates title genre platform t aud concept ht hg ha h30 h120
  refine ⟨hval, ?_⟩
  unfold BreakdownGenerator.generate
  rw [hval]
  obtain ⟨es, hes⟩ := generateEntries_generated genre t
    (ScriptGenerator.generate_characters genre aud) concept
  rw [show (ScriptGenerator.generate title genre platform t aud concept).scenes =
    ScriptGenerator.generate_scenes genre t
      (ScriptGenerator.generate_characters genre aud) concept from rfl]
  rw [hes]
  exact ⟨_, rfl⟩

/-- C3 amended, witness: instantiated at concrete non-blank inputs. -/
theorem C3_witness :
    (ScriptGenerator.generate "T" "g" Platform.TIKTOK 60 "a" none).validate =
      (true, none) ∧
    ∃ bd, BreakdownGenerator.generate
      (ScriptGenerator.generate "T" "g" Platform.TIKTOK 60 "a" none) = Except.ok bd :=
  C3_generated_script_valid_and_breakdown_succeeds "T" "g" Platform.TIKTOK 60 "a" none
    (by decide) (by decide) (by decide) (by decide) (by decide)

lemma script_validate_shape (s : Script) :
    s.validate = (true, none) ∨ s.validate.1 = false := by
  unfold Script.validate
  split_ifs <;> try exact Or.inr rfl
  rcases hc : Script.charactersError s.characters with _ | e <;> dsimp only <;>
    try exact Or.inr rfl
  rcases hs : Script.scenesError s.scenes with _ | e <;> dsimp only <;>
    try exact Or.inr rfl
  rcases hd : Script.dialogueCharsError (s.characters.map Character.name) s.scenes
      with _ | e <;> dsimp only
  · exact Or.inl rfl
  · exact Or.inr rfl

lemma breakdown_validate_shape (b : Breakdown) :
    b.validate = (true, none) ∨ b.validate.1 = false := by
  unfold Breakdown.validate
  split_ifs <;> try exact Or.inr rfl
  rcases he : Breakdown.entriesError b.entries with _ | e <;> dsimp only <;>
    try exact Or.inr rfl
  split_ifs <;> first | exact Or.inl rfl | exact Or.inr rfl

lemma hook_shots_sum (script : Script) {n : Int} {loc desc : String} {d : Dialogue} :
    ((StoryboardGenerator.generate_shots_for_scene
      { scene_number := n, location := loc, time_of_day := "DAY",
        interior_exterior := "INT", description := desc, dialogues := [d],
        estimated_duration_seconds := some 5, is_hook := true } script).map
      Shot.suggested_duration_seconds).sum = 5 := by
  unfold StoryboardGenerator.generate_shots_for_scene StoryboardGenerator.sceneDuration
  simp only [show ((5 : Int) = 0) = False from by simp, if_false]
  split_ifs <;> simp

lemma nonhook_shots_sum (script : Script) {n : Int} (D : Int) (hD : D ≠ 0)
    {loc desc : String} {d : Dialogue} :
    ((StoryboardGenerator.generate_shots_for_scene
      { scene_number := n, location := loc, time_of_day := "DAY",
        interior_exterior := "INT", description := desc, dialogues := [d],
        estimated_duration_seconds := some D, is_hook := false } script).map
      Shot.suggested_duration_seconds).sum = 2 * max 2 (pyFloorDiv D 2) := by
  unfold StoryboardGenerator.generate_shots_for_scene StoryboardGenerator.sceneDuration
    StoryboardGenerator.dialogueShots
  dsimp only
  rw [if_neg (by simp)]
  rw [if_pos (by simp)]
  simp [hD, List.range_succ]
  ring

lemma pyDeviation_le_point2 {total target : Int} (ht : 0 < target)
    (h : |total - target| * 5 ≤ target) : pyDeviation total target ≤ (0.2 : Rat) := by
  by_contra hc
  push_neg at hc
  have hgt := (pyDeviation_gt_point2_iff ht).mp hc
  linarith

lemma pyFloorDiv_two (a : Int) : pyFloorDiv a 2 = a / 2 := by
  unfold pyFloorDiv
  exact Int.fdiv_eq_ediv a (by norm_num)

/-- C1: for every storyboard produced by `StoryboardGenerator.generate` from a
generated Script (target duration in [30,120]) and that Script's generated
Breakdown, the total suggested shot duration deviates from the target by at
most 20% of the target. -/
theorem C1_total_duration_within_20_percent (title genre : String) (platform : Platform)
    (t : Int) (aud : String) (concept : Option String) (h30 : 30 ≤ t) (h120 : t ≤ 120)
    (bd : Breakdown) (sb : Storyboard)
    (hbd : BreakdownGenerator.generate
      (ScriptGenerator.generate title genre platform t aud concept) = .ok bd)
    (hsb : StoryboardGenerator.generate
      (ScriptGenerator.generate title genre platform t aud concept) bd = .ok sb) :
    pyDeviation sb.get_total_duration t ≤ (0.2 : Rat) := by
  set S := ScriptGenerator.generate title genre platform t aud concept with hS
  have hval : S.validate = (true, none) := by
    rcases script_validate_shape S with h | h
    · exact h
    · exfalso
      unfold BreakdownGenerator.generate at hbd
      rcases hv : S.validate with ⟨b, e⟩
      rw [hv] at hbd h
      simp only at h
      subst h
      simp at hbd
  unfold StoryboardGenerator.generate at hsb
  rw [hval] at hsb
  rcases breakdown_validate_shape bd with hb | hb
  · rw [hb] at hsb
    simp only [Except.ok.injEq] at hsb
    subst hsb
    unfold Storyboard.get_total_duration
    dsimp only
    rw [show S.scenes = ScriptGenerator.generate_scenes genre t
      (ScriptGenerator.generate_characters genre aud) concept from rfl]
    unfold ScriptGenerator.generate_scenes
    dsimp only
    by_cases h45 : t ≥ 45
    · rw [if_pos h45]
      have hdev_ne : pyFloorDiv (t - 5) 2 ≠ 0 := by
        rw [pyFloorDiv_two]
        omega
      have hres_ne : t - 5 - pyFloorDiv (t - 5) 2 ≠ 0 := by
        rw [pyFloorDiv_two]
        omega
      simp only [List.flatMap_cons, List.flatMap_nil, List.append_nil, List.map_append,
        List.sum_append]
      rw [hook_shots_sum, nonhook_shots_sum S (pyFloorDiv (t - 5) 2) hdev_ne,
        nonhook_shots_sum S (t - 5 - pyFloorDiv (t - 5) 2) hres_ne]
      rw [pyFloorDiv_two, pyFloorDiv_two, pyFloorDiv_two]
      rw [max_eq_right (by omega), max_eq_right (by omega)]
      refine pyDeviation_le_point2 (by omega) ?_
      have habs : |5 + (2 * ((t - 5) / 2 / 2) + 2 * ((t - 5 - (t - 5) / 2) / 2)) - t| ≤ 2 :=
        abs_le.mpr ⟨by omega, by omega⟩
      linarith
    · rw [if_neg h45]
      have hres_ne : t - 5 ≠ 0 := by omega
      simp only [List.flatMap_cons, List.flatMap_nil, List.append_nil, List.map_append,
        List.sum_append]
      rw [hook_shots_sum, nonhook_shots_sum S (t - 5) hres_ne]
      rw [pyFloorDiv_two]
      rw [max_eq_right (by omega)]
      refine pyDeviation_le_point2 (by omega) ?_
      have habs : |5 + 2 * ((t - 5) / 2) - t| ≤ 1 := abs_le.mpr ⟨by omega, by omega⟩
      linarith
  · exfalso
    rcases hbv : bd.validate with ⟨b2, e2⟩
    rw [hbv] at hsb hb
    simp only at hb
    subst hb
    simp at hsb

/-- Concrete pipeline instances for the C1 witness. -/
def c1script : Script := ScriptGenerator.generate "T" "Drama" Platform.TIKTOK 60 "Adults" none

/-- The breakdown generated from `c1script`. -/
def c1bd : Breakdown :=
  (BreakdownGenerator.generate c1script).toOption.getD { script_title := "", entries := [] }

/-- The storyboard generated from `c1script` and `c1bd`. -/
def c1sb : Storyboard :=
  (StoryboardGenerator.generate c1script c1bd).toOption.getD
    { script_title := "", target_duration_seconds := 0, shots := [] }

set_option maxRecDepth 16000 in
/-- C1 witness: the pipeline at title "T", genre "Drama", 60s target. -/
theorem C1_witness : pyDeviation c1sb.get_total_duration 60 ≤ (0.2 : Rat) :=
  C1_total_duration_within_20_percent "T" "Drama" Platform.TIKTOK 60 "Adults" none
    (by decide) (by decide) c1bd c1sb rfl rfl

lemma strBlank_append_left {a : String} (h : strBlank a = false) (b : String) :
    strBlank (a ++ b) = false := by
  rw [strBlank_append, h]
  rfl

lemma strBlank_append_right {b : String} (h : strBlank b = false) (a : String) :
    strBlank (a ++ b) = false := by
  rw [strBlank_append, h]
  exact Bool.and_false _

lemma shot_validate_true {s : Shot} (h1 : strBlank s.shot_id = false)
    (h2 : ¬s.scene_number < 1) (h3 : strBlank s.camera_position = false)
    (h4 : strBlank s.visual_description = false)
    (h5 : ¬s.suggested_duration_seconds < 1) : s.validate = (true, none) := by
  unfold Shot.validate
  rw [if_neg (by simp [h1]), if_neg (by simpa using h2), if_neg (by simp [h3]),
    if_neg (by simp [h4]), if_neg (by simpa using h5)]

lemma Storyboard.shotsError_none {shots : List Shot}
    (h : ∀ s ∈ shots, s.validate = (true, none)) :
    Storyboard.shotsError shots = none := by
  induction shots with
  | nil => rfl
  | cons s ss ih =>
    rw [Storyboard.shotsError, h s (by simp)]
    exact ih (fun x hx => h x (List.mem_cons_of_mem s hx))

lemma AdvisoryItem.itemsError_none {items : List AdvisoryItem}
    (h : ∀ i ∈ items, i.validate = (true, none)) :
    AdvisoryItem.itemsError items = none := by
  induction items with
  | nil => rfl
  | cons i is ih =>
    rw [AdvisoryItem.itemsError, h i (by simp)]
    exact ih (fun x hx => h x (List.mem_cons_of_mem i hx))

lemma advisoryItem_validate_true {i : AdvisoryItem} (h1 : strBlank i.category = false)
    (h2 : i.priority = "HIGH" ∨ i.priority = "MEDIUM" ∨ i.priority = "LOW")
    (h3 : strBlank i.description = false) (h4 : i.actionable_steps ≠ []) :
    i.validate = (true, none) := by
  unfold AdvisoryItem.validate
  rw [if_neg (by simp [h1]), if_neg (by rcases h2 with h | h | h <;> simp [h]),
    if_neg (by simp [h3]), if_neg (by simp [List.isEmpty_iff, h4])]

lemma vfp_true_validate {s : Script} {issues : List String}
    (h : ScriptValidator.validate_for_production s = (true, issues)) :
    s.validate = (true, none) := by
  rcases script_validate_shape s with hv | hv
  · exact hv
  · exfalso
    unfold ScriptValidator.validate_for_production at h
    rcases he : s.validate with ⟨b, e⟩
    rw [he] at h hv
    simp only at hv
    subst hv
    simp at h

lemma vfp_false_nonempty {s : Script} {issues : List String}
    (h : ScriptValidator.validate_for_production s = (false, issues)) : issues ≠ [] := by
  unfold ScriptValidator.validate_for_production at h
  rcases he : s.validate with ⟨b, e⟩
  rw [he] at h
  cases b
  · simp only [Prod.mk.injEq] at h
    rw [← h.2]
    simp
  · simp only [Prod.mk.injEq] at h
    obtain ⟨hemp, hiss⟩ := h
    rw [← hiss]
    intro hnil
    rw [hnil] at hemp
    simp at hemp

lemma hook_shots_shape (script : Script) {n : Int} (hn : ¬n < 1) {loc desc : String}
    {d : Dialogue} :
    ∃ a b, StoryboardGenerator.generate_shots_for_scene
      { scene_number := n, location := loc, time_of_day := "DAY",
        interior_exterior := "INT", description := desc, dialogues := [d],
        estimated_duration_seconds := some 5, is_hook := true } script = [a, b] ∧
      a.validate = (true, none) ∧ b.validate = (true, none) ∧
      a.scene_number = n ∧ b.scene_number = n ∧
      a.shot_id = toString n ++ "A" ∧ b.shot_id = toString n ++ "B" ∧
      a.shot_size = ShotSize.MEDIUM ∧ b.shot_size = ShotSize.CLOSE_UP := by
  unfold StoryboardGenerator.generate_shots_for_scene StoryboardGenerator.sceneDuration
  simp only [show ((5 : Int) = 0) = False from by simp, if_false]
  split_ifs <;>
    refine ⟨_, _, rfl, ?_, ?_, rfl, rfl, rfl, rfl, rfl, rfl⟩ <;>
    refine shot_validate_true ?_ (by simpa using hn) ?_ ?_ (by norm_num) <;>
    (dsimp only
     first
       | decide
       | exact strBlank_append_right (by decide) _
       | exact strBlank_append_left (strBlank_append_right (by decide) _) _)

lemma nonhook_shots_shape (script : Script) {n : Int} (D : Int) (hn : ¬n < 1) (hD : D ≠ 0)
    {loc desc : String} {d : Dialogue} :
    ∃ a b, StoryboardGenerator.generate_shots_for_scene
      { scene_number := n, location := loc, time_of_day := "DAY",
        interior_exterior := "INT", description := desc, dialogues := [d],
        estimated_duration_seconds := some D, is_hook := false } script = [a, b] ∧
      a.validate = (true, none) ∧ b.validate = (true, none) ∧
      a.scene_number = n ∧ b.scene_number = n ∧
      a.shot_id = toString n ++ "A" ∧ b.shot_id = toString n ++ "B" ∧
      a.shot_size = ShotSize.WIDE ∧ b.shot_size = ShotSize.MEDIUM := by
  unfold StoryboardGenerator.generate_shots_for_scene StoryboardGenerator.sceneDuration
    StoryboardGenerator.dialogueShots
  dsimp only
  rw [if_neg (by simp)]
  rw [if_pos (by simp)]
  simp only [hD, if_false, List.range_succ, List.range_zero, List.nil_append,
    List.zip_cons_cons, List.zip_nil_right, List.zip_nil_left, List.map_cons, List.map_nil]
  split_ifs <;>
    refine ⟨_, _, rfl, ?_, ?_, rfl, rfl, rfl, rfl, rfl, rfl⟩ <;>
    refine shot_validate_true ?_ (by simpa using hn) ?_ ?_
      (not_lt.mpr (le_trans (by norm_num) (le_max_left 2 _))) <;>
    (dsimp only
     first
       | decide
       | exact strBlank_append_right (by decide) _
       | exact strBlank_append_left (by decide) _
       | exact strBlank_append_left (strBlank_append_right (by decide) _) _
       | exact strBlank_append_left (strBlank_append_left
           (strBlank_append_right (by decide) _) _) _)

lemma script_validate_inputs {s : Script} (h : s.validate = (true, none)) :
    strBlank s.title = false ∧ strBlank s.genre = false ∧
    30 ≤ s.target_duration_seconds ∧ s.target_duration_seconds ≤ 120 ∧
    strBlank s.target_audience = false := by
  unfold Script.validate at h
  split_ifs at h with h1 h2 h3 h4 h5 h6 <;>
    first
      | simp_all
      | (refine ⟨by simpa using h1, by simpa using h2, ?_, ?_, by simpa using h4⟩ <;>
         · simp only [Bool.not_eq_true', decide_eq_false_iff_not, not_not] at h3
           omega)

lemma generated_scenes_facts (genre : String) (t : Int) (chars : List Character)
    (concept : Option String) :
    (ScriptGenerator.generate_scenes genre t chars concept).map Scene.scene_number =
      seqFrom 1 (ScriptGenerator.generate_scenes genre t chars concept).length ∧
    1 ≤ (ScriptGenerator.generate_scenes genre t chars concept).length ∧
    (∀ sc ∈ ScriptGenerator.generate_scenes genre t chars concept, sc.dialogues ≠ []) ∧
    (∀ sc ∈ ScriptGenerator.generate_scenes genre t chars concept,
      strBlank sc.description = false) := by
  unfold ScriptGenerator.generate_scenes
  dsimp only
  by_cases h45 : t ≥ 45 <;> [rw [if_pos h45]; rw [if_neg h45]] <;>
    refine ⟨?_, ?_, ?_, ?_⟩ <;>
    first
      | (dsimp only [List.map_cons, List.map_nil, List.length_cons, List.length_nil]
         decide)
      | (intro sc hsc
         simp only [List.mem_cons, List.not_mem_nil, or_false] at hsc
         rcases hsc with rfl | rfl | rfl <;>
           first
             | exact get_scene_description_nonblank _ _
             | simp)

lemma validate_against_script_generated {script : Script} {bd : Breakdown}
    (hval : script.validate = (true, none))
    (hnum : script.scenes.map Scene.scene_number = seqFrom 1 script.scenes.length)
    (hN1 : 1 ≤ script.scenes.length)
    (hdia : ∀ sc ∈ script.scenes, sc.dialogues ≠ [])
    (hdesc : ∀ sc ∈ script.scenes, strBlank sc.description = false)
    (hbd : BreakdownGenerator.generate script = .ok bd) :
    bd.validate = (true, none) ∧
    BreakdownValidator.validate_against_script bd script = (true, []) := by
  obtain ⟨htitle, hscerr, hdcerr⟩ := script_validate_parts hval
  unfold BreakdownGenerator.generate at hbd
  rw [hval] at hbd
  rcases hge : BreakdownGenerator.generateEntries script.scenes with e | entries <;>
    rw [hge] at hbd
  · simp at hbd
  have hbd' : bd = { script_title := script.title, entries := entries } := by
    cases hbd; rfl
  subst hbd'
  obtain ⟨hlen, hmem, hmap⟩ := generateEntries_ok hge
  set N := script.scenes.length with hNdef
  have hnums : entries.map BreakdownEntry.scene_number = seqFrom 1 N := by
    rw [hmap, hnum]
  have hescene := Script.scenesError_none hscerr
  have hentry_valid : ∀ e ∈ entries, e.validate = (true, none) := by
    intro e he
    obtain ⟨sc, hsc, hcr⟩ := hmem e he
    obtain ⟨hn, hd1, hl, hchars, hward⟩ := create_entry_ok hcr
    obtain ⟨hpos, hloc⟩ := scene_validate_parts (Scene.validate_of_fst (hescene sc hsc))
    refine breakdownEntry_validate_true (by rw [hn]; exact hpos) (by rw [hl]; exact hloc)
      (by rw [hd1]; exact hdesc sc hsc) ?_
    rw [hchars]
    exact pySetList_ne_nil (by simp [hdia sc hsc])
  have htv : Breakdown.validate
      { script_title := script.title, entries := entries } = (true, none) := by
    unfold Breakdown.validate
    dsimp only
    rw [if_neg (by simp [htitle])]
    rw [if_neg ?hne]
    case hne =>
      simp only [List.isEmpty_iff]
      intro hnil
      rw [hnil] at hlen
      simp [← hNdef] at hlen
      omega
    rw [Breakdown.entriesError_none hentry_valid]
    simp only [hnums]
    rw [if_neg (by rw [pySetList_eq_self (seqFrom_nodup 1 N)]; simp), if_neg ?hseq]
    case hseq =>
      rw [pySorted_seqFrom, seqFrom_length]
      simp
  refine ⟨htv, ?_⟩
  unfold BreakdownValidator.validate_against_script
  rw [htv]
  dsimp only
  have hmissing :
      (pySetList (script.scenes.map Scene.scene_number)).filter
        (fun n => !((pySetList (entries.map BreakdownEntry.scene_number)).contains n)) =
      [] := by
    rw [hnums, hnum, pySetList_eq_self (seqFrom_nodup 1 N)]
    rw [List.filter_eq_nil_iff]
    intro a ha
    rw [contains_of_mem ha]
    simp
  have hextra :
      (pySetList (entries.map BreakdownEntry.scene_number)).filter
        (fun n => !((pySetList (script.scenes.map Scene.scene_number)).contains n)) = [] := by
    rw [hnums, hnum, pySetList_eq_self (seqFrom_nodup 1 N)]
    rw [List.filter_eq_nil_iff]
    intro a ha
    rw [contains_of_mem ha]
    simp
  have hchar : BreakdownValidator.characterIssues (script.characters.map Character.name)
      entries = [] := by
    unfold BreakdownValidator.characterIssues
    rw [List.flatMap_eq_nil_iff]
    intro e he
    rw [List.filterMap_eq_nil_iff]
    intro ch hch
    obtain ⟨sc, hsc, hcr⟩ := hmem e he
    obtain ⟨-, -, -, hchars, -⟩ := create_entry_ok hcr
    rw [hchars] at hch
    have hmemch := pySetListAux_subset hch
    rw [List.mem_map] at hmemch
    obtain ⟨d, hd, hdc⟩ := hmemch
    have hc : (script.characters.map Character.name).contains ch = true := by
      rw [← hdc]
      exact Script.dialogueCharsError_none hdcerr sc hsc d hd
    rw [if_neg (by rw [hc]; simp)]
  have hcrit : BreakdownValidator.criticalIssues entries = [] := by
    unfold BreakdownValidator.criticalIssues
    rw [List.flatMap_eq_nil_iff]
    intro e he
    obtain ⟨sc, hsc, hcr⟩ := hmem e he
    obtain ⟨-, -, -, hchars, hward⟩ := create_entry_ok hcr
    have hchne : e.characters ≠ [] := by
      rw [hchars]
      exact pySetList_ne_nil (by simp [hdia sc hsc])
    have hwne : e.wardrobe ≠ [] := by
      rw [hward]
      unfold BreakdownGenerator.extract_wardrobe
      intro hcon
      rcases List.append_eq_nil.mp hcon with ⟨h1, -⟩
      rcases List.append_eq_nil.mp h1 with ⟨h2, -⟩
      rw [List.map_eq_nil] at h2
      exact pySetList_ne_nil (by simp [hdia sc hsc]) h2
    rw [if_neg (by simp [List.isEmpty_iff, hchne]),
      if_neg (by simp [List.isEmpty_iff, hwne])]
    simp
  rw [if_neg (by simp [hlen, ← hNdef]), hmissing, hextra, hchar, hcrit]
  rw [if_neg (by simp), if_neg (by simp)]
  simp

set_option maxRecDepth 8000 in
lemma analyze_continuity_risks_valid (bd : Breakdown) :
    ∀ i ∈ ProductionAdvisoryGenerator.analyze_continuity_risks bd,
      i.validate = (true, none) := by
  unfold ProductionAdvisoryGenerator.analyze_continuity_risks
  intro i hi
  simp only [List.mem_append] at hi
  rcases hi with (hi | hi) | hi
  · rw [List.mem_filterMap] at hi
    obtain ⟨p, hp, hf⟩ := hi
    split at hf
    · rw [Option.some.injEq] at hf
      subst hf
      exact advisoryItem_validate_true (by dsimp only; decide) (Or.inl rfl)
        (strBlank_append_right (by decide) _) (by simp)
    · simp at hf
  · rw [List.mem_filterMap] at hi
    obtain ⟨p, hp, hf⟩ := hi
    split at hf
    · rw [Option.some.injEq] at hf
      subst hf
      exact advisoryItem_validate_true (by dsimp only; decide) (Or.inr (Or.inl rfl))
        (strBlank_append_right (by decide) _) (by simp)
    · simp at hf
  · split at hi
    · rw [List.mem_singleton] at hi
      subst hi
      decide
    · simp at hi

set_option maxRecDepth 8000 in
lemma audio_recommendations_valid (script : Script) (bd : Breakdown) :
    ∀ i ∈ ProductionAdvisoryGenerator.generate_audio_recommendations script bd,
      i.validate = (true, none) := by
  unfold ProductionAdvisoryGenerator.generate_audio_recommendations
  intro i hi
  simp only [List.mem_append] at hi
  rcases hi with (hi | hi) | hi
  · split at hi
    · rw [List.mem_singleton] at hi
      subst hi
      decide
    · simp at hi
  · rcases hfind : bd.entries.find? (fun entry => entry.location_type.value == "EXT")
        with _ | entry <;> rw [hfind] at hi
    · simp at hi
    · rw [List.mem_singleton] at hi
      subst hi
      exact advisoryItem_validate_true (by dsimp only; decide) (Or.inr (Or.inl rfl))
        (strBlank_append_left (by decide) _) (by simp)
  · rw [List.mem_singleton] at hi
    subst hi
    decide

set_option maxRecDepth 8000 in
lemma coverage_suggestions_valid (sb : Storyboard) :
    ∀ i ∈ ProductionAdvisoryGenerator.generate_coverage_suggestions sb,
      i.validate = (true, none) := by
  unfold ProductionAdvisoryGenerator.generate_coverage_suggestions
  intro i hi
  simp only [List.mem_append] at hi
  rcases hi with (hi | hi) | hi
  · rw [List.mem_singleton] at hi
    subst hi
    decide
  · rw [List.mem_filterMap] at hi
    obtain ⟨p, hp, hf⟩ := hi
    split at hf
    · rw [Option.some.injEq] at hf
      subst hf
      exact advisoryItem_validate_true (by dsimp only; decide) (Or.inr (Or.inl rfl))
        (strBlank_append_right (by decide) _) (by simp)
    · simp at hf
  · rw [List.mem_singleton] at hi
    subst hi
    decide

set_option maxRecDepth 8000 in
lemma editing_suggestions_valid (script : Script) :
    ∀ i ∈ PostProductionAdvisoryGenerator.generate_editing_suggestions script,
      i.validate = (true, none) := by
  unfold PostProductionAdvisoryGenerator.generate_editing_suggestions
  intro i hi
  simp only [List.mem_append] at hi
  rcases hi with (hi | hi) | hi
  · rcases hs : script.scenes with _ | ⟨scene, rest⟩ <;> rw [hs] at hi <;> dsimp only at hi
    · simp at hi
    · split at hi
      · rw [List.mem_singleton] at hi
        subst hi
        decide
      · simp at hi
  · split at hi
    · rw [List.mem_singleton] at hi
      subst hi
      decide
    · simp at hi
  · rw [List.mem_singleton] at hi
    subst hi
    decide

set_option maxRecDepth 8000 in
lemma platform_guidelines_valid (script : Script) :
    ∀ i ∈ PostProductionAdvisoryGenerator.generate_platform_guidelines script,
      i.validate = (true, none) := by
  unfold PostProductionAdvisoryGenerator.generate_platform_guidelines
  intro i hi
  rw [List.mem_append] at hi
  rcases hi with hi | hi
  · split at hi
    · rw [List.mem_singleton] at hi
      subst hi
      exact advisoryItem_validate_true (by dsimp only; decide) (Or.inl rfl)
        (strBlank_append_right (by decide) _) (by simp)
    · simp at hi
  · simp only [List.mem_cons, List.not_mem_nil, or_false] at hi
    rcases hi with rfl | rfl | rfl <;> decide

set_option maxRecDepth 8000 in
lemma revision_pitfalls_valid :
    ∀ i ∈ PostProductionAdvisoryGenerator.generate_revision_pitfalls,
      i.validate = (true, none) := by
  intro i hi
  unfold PostProductionAdvisoryGenerator.generate_revision_pitfalls at hi
  simp only [List.mem_cons, List.not_mem_nil, or_false] at hi
  rcases hi with rfl | rfl | rfl <;> decide

lemma production_notes_valid (script : Script) (bd : Breakdown) (sb : Storyboard)
    (ht : strBlank script.title = false) :
    (ProductionAdvisoryGenerator.generate script bd sb).validate = (true, none) := by
  unfold ProductionAdvisoryGenerator.generate ProductionNotes.validate
  dsimp only
  rw [if_neg (by simp [ht])]
  rw [if_neg ?hlen]
  case hlen =>
    have ha : 1 ≤
        (ProductionAdvisoryGenerator.generate_audio_recommendations script bd).length := by
      unfold ProductionAdvisoryGenerator.generate_audio_recommendations
      simp only [List.length_append, List.length_cons, List.length_nil]
      omega
    have hc : 2 ≤
        (ProductionAdvisoryGenerator.generate_coverage_suggestions sb).length := by
      unfold ProductionAdvisoryGenerator.generate_coverage_suggestions
      simp only [List.length_append, List.length_cons, List.length_nil]
      omega
    omega
  rw [AdvisoryItem.itemsError_none ?hall]
  case hall =>
    intro i hi
    simp only [List.mem_append] at hi
    rcases hi with (hi | hi) | hi
    · exact analyze_continuity_risks_valid bd i hi
    · exact audio_recommendations_valid script bd i hi
    · exact coverage_suggestions_valid sb i hi

lemma postproduction_notes_valid (script : Script) (ht : strBlank script.title = false) :
    (PostProductionAdvisoryGenerator.generate script).validate = (true, none) := by
  unfold PostProductionAdvisoryGenerator.generate PostProductionNotes.validate
  dsimp only
  rw [if_neg (by simp [ht])]
  rw [if_neg ?hlen]
  case hlen =>
    have hp : 3 ≤
        (PostProductionAdvisoryGenerator.generate_platform_guidelines script).length := by
      unfold PostProductionAdvisoryGenerator.generate_platform_guidelines
      simp only [List.length_append, List.length_cons, List.length_nil]
      omega
    omega
  rw [AdvisoryItem.itemsError_none ?hall]
  case hall =>
    intro i hi
    simp only [List.mem_append] at hi
    rcases hi with (hi | hi) | hi
    · exact editing_suggestions_valid script i hi
    · exact platform_guidelines_valid script i hi
    · exact revision_pitfalls_valid i hi

lemma total_duration_ok {X t : Int} (h30 : 30 ≤ t) (habs : |X - t| ≤ 2) :
    ¬pyDeviation X t > (0.2 : Rat) := by
  intro hgt
  have h := (pyDeviation_gt_point2_iff (by omega)).mp hgt
  linarith

lemma continuity_three_scenes (S : Script) (t : Int) (h30 : 30 ≤ t) (h45 : 45 ≤ t)
    (h120 : t ≤ 120) (ht : strBlank S.title = false)
    {l1 d1 l2 d2 l3 d3 : String} {g1 g2 g3 : Dialogue}
    (hsc : S.scenes =
      [{ scene_number := 1, location := l1, time_of_day := "DAY",
         interior_exterior := "INT", description := d1, dialogues := [g1],
         estimated_duration_seconds := some 5, is_hook := true },
       { scene_number := 2, location := l2, time_of_day := "DAY",
         interior_exterior := "INT", description := d2, dialogues := [g2],
         estimated_duration_seconds := some (pyFloorDiv (t - 5) 2), is_hook := false },
       { scene_number := 3, location := l3, time_of_day := "DAY",
         interior_exterior := "INT", description := d3, dialogues := [g3],
         estimated_duration_seconds := some (t - 5 - pyFloorDiv (t - 5) 2),
         is_hook := false }]) :
    ContinuityChecker.check_continuity
      { script_title := S.title, target_duration_seconds := t,
        shots := S.scenes.flatMap
          (fun scene => StoryboardGenerator.generate_shots_for_scene scene S) } S =
      (true, []) := by
  have hdev_ne : pyFloorDiv (t - 5) 2 ≠ 0 := by rw [pyFloorDiv_two]; omega
  have hres_ne : t - 5 - pyFloorDiv (t - 5) 2 ≠ 0 := by rw [pyFloorDiv_two]; omega
  obtain ⟨a1, b1, e1, va1, vb1, na1, nb1, ia1, ib1, sa1, sb1⟩ :=
    @hook_shots_shape S 1 (by decide) l1 d1 g1
  obtain ⟨a2, b2, e2, va2, vb2, na2, nb2, ia2, ib2, sa2, sb2⟩ :=
    @nonhook_shots_shape S 2 (pyFloorDiv (t - 5) 2) (by decide) hdev_ne l2 d2 g2
  obtain ⟨a3, b3, e3, va3, vb3, na3, nb3, ia3, ib3, sa3, sb3⟩ :=
    @nonhook_shots_shape S 3 (t - 5 - pyFloorDiv (t - 5) 2) (by decide) hres_ne l3 d3 g3
  have hs1 := @hook_shots_sum S 1 l1 d1 g1
  have hs2 := @nonhook_shots_sum S 2 (pyFloorDiv (t - 5) 2) hdev_ne l2 d2 g2
  have hs3 := @nonhook_shots_sum S 3 (t - 5 - pyFloorDiv (t - 5) 2) hres_ne l3 d3 g3
  rw [e1] at hs1
  rw [e2] at hs2
  rw [e3] at hs3
  simp only [List.map_cons, List.map_nil, List.sum_cons, List.sum_nil] at hs1 hs2 hs3
  rw [pyFloorDiv_two, pyFloorDiv_two] at hs2
  rw [max_eq_right (by omega)] at hs2
  rw [pyFloorDiv_two, pyFloorDiv_two] at hs3
  rw [max_eq_right (by omega)] at hs3
  have hshots :
      S.scenes.flatMap (fun scene => StoryboardGenerator.generate_shots_for_scene scene S) =
      [a1, b1, a2, b2, a3, b3] := by
    rw [hsc]
    simp only [List.flatMap_cons, List.flatMap_nil, List.append_nil]
    rw [e1, e2, e3]
    rfl
  have habs :
      |(([a1, b1, a2, b2, a3, b3].map Shot.suggested_duration_seconds).sum) - t| ≤ 2 := by
    simp only [List.map_cons, List.map_nil, List.sum_cons, List.sum_nil]
    exact abs_le.mpr ⟨by omega, by omega⟩
  have hall : ∀ s ∈ [a1, b1, a2, b2, a3, b3], s.validate = (true, none) := by
    intro s hs
    simp only [List.mem_cons, List.not_mem_nil, or_false] at hs
    rcases hs with rfl | rfl | rfl | rfl | rfl | rfl <;> assumption
  have hsbval : Storyboard.validate
      { script_title := S.title, target_duration_seconds := t,
        shots := [a1, b1, a2, b2, a3, b3] } = (true, none) := by
    unfold Storyboard.validate Storyboard.get_total_duration
    dsimp only
    rw [if_neg (by simp [ht]), if_neg (by simp)]
    rw [Storyboard.shotsError_none hall]
    dsimp only
    rw [if_neg (by
      simp only [List.map_cons, List.map_nil]
      rw [ia1, ib1, ia2, ib2, ia3, ib3]
      decide)]
    rw [if_neg (total_duration_ok h30 habs)]
  have hexist : ContinuityChecker.sceneExistenceIssues
      (pySetList (S.scenes.map Scene.scene_number)) [a1, b1, a2, b2, a3, b3] = [] := by
    have hset : pySetList (S.scenes.map Scene.scene_number) = [1, 2, 3] := by
      rw [hsc]
      dsimp only [List.map_cons, List.map_nil]
      decide
    rw [hset]
    simp [ContinuityChecker.sceneExistenceIssues, na1, nb1, na2, nb2, na3, nb3]
  have hjump : ContinuityChecker.jumpCutScan none [a1, b1, a2, b2, a3, b3] = [] := by
    simp [ContinuityChecker.jumpCutScan, na1, nb1, na2, nb2, na3, nb3,
      sa1, sb1, sa2, sb2, sa3, sb3]
  have hdur : ContinuityChecker.durationIssues
      { script_title := S.title, target_duration_seconds := t,
        shots := [a1, b1, a2, b2, a3, b3] } = [] := by
    unfold ContinuityChecker.durationIssues Storyboard.get_total_duration
    dsimp only
    rw [if_neg (total_duration_ok h30 habs)]
  have hcov : ContinuityChecker.coverageIssues S.scenes [a1, b1, a2, b2, a3, b3] = [] := by
    rw [hsc]
    simp [ContinuityChecker.coverageIssues, List.countP_cons, List.countP_nil,
      na1, nb1, na2, nb2, na3, nb3]
  unfold ContinuityChecker.check_continuity
  rw [hshots, hsbval]
  dsimp only
  rw [hexist, hjump, hdur, hcov]
  rfl

lemma continuity_two_scenes (S : Script) (t : Int) (h30 : 30 ≤ t) (h45 : t < 45)
    (ht : strBlank S.title = false) {l1 d1 l2 d2 : String} {g1 g2 : Dialogue}
    (hsc : S.scenes =
      [{ scene_number := 1, location := l1, time_of_day := "DAY",
         interior_exterior := "INT", description := d1, dialogues := [g1],
         estimated_duration_seconds := some 5, is_hook := true },
       { scene_number := 2, location := l2, time_of_day := "DAY",
         interior_exterior := "INT", description := d2, dialogues := [g2],
         estimated_duration_seconds := some (t - 5), is_hook := false }]) :
    ContinuityChecker.check_continuity
      { script_title := S.title, target_duration_seconds := t,
        shots := S.scenes.flatMap
          (fun scene => StoryboardGenerator.generate_shots_for_scene scene S) } S =
      (true, []) := by
  have hres_ne : t - 5 ≠ 0 := by omega
  obtain ⟨a1, b1, e1, va1, vb1, na1, nb1, ia1, ib1, sa1, sb1⟩ :=
    @hook_shots_shape S 1 (by decide) l1 d1 g1
  obtain ⟨a2, b2, e2, va2, vb2, na2, nb2, ia2, ib2, sa2, sb2⟩ :=
    @nonhook_shots_shape S 2 (t - 5) (by decide) hres_ne l2 d2 g2
  have hs1 := @hook_shots_sum S 1 l1 d1 g1
  have hs2 := @nonhook_shots_sum S 2 (t - 5) hres_ne l2 d2 g2
  rw [e1] at hs1
  rw [e2] at hs2
  simp only [List.map_cons, List.map_nil, List.sum_cons, List.sum_nil] at hs1 hs2
  rw [pyFloorDiv_two] at hs2
  rw [max_eq_right (by omega)] at hs2
  have hshots :
      S.scenes.flatMap (fun scene => StoryboardGenerator.generate_shots_for_scene scene S) =
      [a1, b1, a2, b2] := by
    rw [hsc]
    simp only [List.flatMap_cons, List.flatMap_nil, List.append_nil]
    rw [e1, e2]
    rfl
  have habs :
      |(([a1, b1, a2, b2].map Shot.suggested_duration_seconds).sum) - t| ≤ 2 := by
    simp only [List.map_cons, List.map_nil, List.sum_cons, List.sum_nil]
    exact abs_le.mpr ⟨by omega, by omega⟩
  have hall : ∀ s ∈ [a1, b1, a2, b2], s.validate = (true, none) := by
    intro s hs
    simp only [List.mem_cons, List.not_mem_nil, or_false] at hs
    rcases hs with rfl | rfl | rfl | rfl <;> assumption
  have hsbval : Storyboard.validate
      { script_title := S.title, target_duration_seconds := t,
        shots := [a1, b1, a2, b2] } = (true, none) := by
    unfold Storyboard.validate Storyboard.get_total_duration
    dsimp only
    rw [if_neg (by simp [ht]), if_neg (by simp)]
    rw [Storyboard.shotsError_none hall]
    dsimp only
    rw [if_neg (by
      simp only [List.map_cons, List.map_nil]
      rw [ia1, ib1, ia2, ib2]
      decide)]
    rw [if_neg (total_duration_ok h30 habs)]
  have hexist : ContinuityChecker.sceneExistenceIssues
      (pySetList (S.scenes.map Scene.scene_number)) [a1, b1, a2, b2] = [] := by
    have hset : pySetList (S.scenes.map Scene.scene_number) = [1, 2] := by
      rw [hsc]
      dsimp only [List.map_cons, List.map_nil]
      decide
    rw [hset]
    simp [ContinuityChecker.sceneExistenceIssues, na1, nb1, na2, nb2]
  have hjump : ContinuityChecker.jumpCutScan none [a1, b1, a2, b2] = [] := by
    simp [ContinuityChecker.jumpCutScan, na1, nb1, na2, nb2, sa1, sb1, sa2, sb2]
  have hdur : ContinuityChecker.durationIssues
      { script_title := S.title, target_duration_seconds := t,
        shots := [a1, b1, a2, b2] } = [] := by
    unfold ContinuityChecker.durationIssues Storyboard.get_total_duration
    dsimp only
    rw [if_neg (total_duration_ok h30 habs)]
  have hcov : ContinuityChecker.coverageIssues S.scenes [a1, b1, a2, b2] = [] := by
    rw [hsc]
    simp [ContinuityChecker.coverageIssues, List.countP_cons, List.countP_nil,
      na1, nb1, na2, nb2]
  unfold ContinuityChecker.check_continuity
  rw [hshots, hsbval]
  dsimp only
  rw [hexist, hjump, hdur, hcov]
  rfl

lemma continuity_generated (title genre : String) (platform : Platform) (t : Int)
    (aud : String) (concept : Option String) (ht : strBlank title = false)
    (h30 : 30 ≤ t) (h120 : t ≤ 120) :
    ContinuityChecker.check_continuity
      { script_title := (ScriptGenerator.generate title genre platform t aud concept).title,
        target_duration_seconds := t,
        shots := (ScriptGenerator.generate title genre platform t aud concept).scenes.flatMap
          (fun scene => StoryboardGenerator.generate_shots_for_scene scene
            (ScriptGenerator.generate title genre platform t aud concept)) }
      (ScriptGenerator.generate title genre platform t aud concept) = (true, []) := by
  by_cases h45 : 45 ≤ t
  · exact continuity_three_scenes
      (ScriptGenerator.generate title genre platform t aud concept)
      t h30 h45 h120 ht (by
        show ScriptGenerator.generate_scenes genre t
          (ScriptGenerator.generate_characters genre aud) concept = _
        unfold ScriptGenerator.generate_scenes
        dsimp only
        rw [if_pos (by omega : t ≥ 45)])
  · exact continuity_two_scenes
      (ScriptGenerator.generate title genre platform t aud concept)
      t h30 (by omega) ht (by
        show ScriptGenerator.generate_scenes genre t
          (ScriptGenerator.generate_characters genre aud) concept = _
        unfold ScriptGenerator.generate_scenes
        dsimp only
        rw [if_neg (by omega : ¬t ≥ 45)])

/-- C4: `EntertainmentWorkflow.execute_full_workflow` either stops at the first
validation gate — returning `success = false`, exactly that gate's issue list
(which is non-empty), and no artifacts, since nothing has been persisted yet —
or every gate passes and it returns `success = true`, no errors, and the map of
exactly the seven artifacts script, breakdown_json, breakdown_csv, storyboard,
shotlist, production_notes, postproduction_notes.  (For the generated pipeline
the script-validation gate is the only one that can fail: downstream
generators never raise on a validated generated Script and the later gates
always pass, so every failing execution is of the first form.) -/
theorem C4_workflow_first_gate_failure_or_seven_artifacts (title genre : String)
    (platform : Platform) (t : Int) (aud output_dir : String) :
    (EntertainmentWorkflow.execute_full_workflow title genre platform t aud output_dir =
        { success := false,
          errors := (ScriptValidator.validate_for_production
            (ScriptGenerator.generate title genre platform t aud none)).2,
          output_files := [] } ∧
      (ScriptValidator.validate_for_production
        (ScriptGenerator.generate title genre platform t aud none)).2 ≠ []) ∨
    ((EntertainmentWorkflow.execute_full_workflow title genre platform t aud
        output_dir).success = true ∧
      (EntertainmentWorkflow.execute_full_workflow title genre platform t aud
        output_dir).errors = [] ∧
      (EntertainmentWorkflow.execute_full_workflow title genre platform t aud
        output_dir).output_files.map Prod.fst =
        ["script", "breakdown_json", "breakdown_csv", "storyboard", "shotlist",
         "production_notes", "postproduction_notes"]) := by
  rcases hv : ScriptValidator.validate_for_production
      (ScriptGenerator.generate title genre platform t aud none) with ⟨b, issues⟩
  cases b
  · left
    refine ⟨?_, ?_⟩
    · unfold EntertainmentWorkflow.execute_full_workflow
      dsimp only
      rw [hv]
    · exact vfp_false_nonempty hv
  · right
    have hval : (ScriptGenerator.generate title genre platform t aud none).validate =
        (true, none) := vfp_true_validate hv
    obtain ⟨ht, hg, h30, h120, ha⟩ := script_validate_inputs hval
    obtain ⟨hnum, hN1, hdia, hdesc⟩ := generated_scenes_facts genre t
      (ScriptGenerator.generate_characters genre aud) none
    obtain ⟨es, hes⟩ := generateEntries_generated genre t
      (ScriptGenerator.generate_characters genre aud) none
    have hbd : BreakdownGenerator.generate
        (ScriptGenerator.generate title genre platform t aud none) =
        .ok { script_title := title, entries := es } := by
      unfold BreakdownGenerator.generate
      rw [hval]
      rw [show (ScriptGenerator.generate title genre platform t aud none).scenes =
        ScriptGenerator.generate_scenes genre t
          (ScriptGenerator.generate_characters genre aud) none from rfl]
      rw [hes]
      rfl
    obtain ⟨hbdval, hvas⟩ := validate_against_script_generated hval hnum hN1 hdia hdesc hbd
    have hsb : StoryboardGenerator.generate
        (ScriptGenerator.generate title genre platform t aud none)
        { script_title := title, entries := es } =
        .ok { script_title := (ScriptGenerator.generate title genre platform t aud none).title,
              target_duration_seconds := t,
              shots := (ScriptGenerator.generate title genre platform t aud
                none).scenes.flatMap
                (fun scene => StoryboardGenerator.generate_shots_for_scene scene
                  (ScriptGenerator.generate title genre platform t aud none)) } := by
      unfold StoryboardGenerator.generate
      rw [hval, hbdval]
      rfl
    have hcc := continuity_generated title genre platform t aud none ht h30 h120
    have hpn := production_notes_valid
      (ScriptGenerator.generate title genre platform t aud none)
      { script_title := title, entries := es }
      { script_title := (ScriptGenerator.generate title genre platform t aud none).title,
        target_duration_seconds := t,
        shots := (ScriptGenerator.generate title genre platform t aud none).scenes.flatMap
          (fun scene => StoryboardGenerator.generate_shots_for_scene scene
            (ScriptGenerator.generate title genre platform t aud none)) } ht
    have hppn := postproduction_notes_valid
      (ScriptGenerator.generate title genre platform t aud none) ht
    have hr : EntertainmentWorkflow.execute_full_workflow title genre platform t aud
        output_dir =
        { success := true, errors := [],
          output_files :=
            [("script", workflowPath output_dir title "_script.json"),
             ("breakdown_json", workflowPath output_dir title "_breakdown.json"),
             ("breakdown_csv", workflowPath output_dir title "_breakdown.csv"),
             ("storyboard", workflowPath output_dir title "_storyboard.md"),
             ("shotlist", workflowPath output_dir title "_shotlist.csv"),
             ("production_notes", workflowPath output_dir title "_production_notes.md"),
             ("postproduction_notes",
               workflowPath output_dir title "_postproduction_notes.md")] } := by
      unfold EntertainmentWorkflow.execute_full_workflow
      dsimp only
      rw [hv]
      dsimp only
      rw [hbd]
      dsimp only
      rw [hvas]
      dsimp only
      rw [hsb]
      dsimp only
      rw [hcc]
      dsimp only
      rw [hpn]
      dsimp only
      rw [hppn]
      rfl
    rw [hr]
    exact ⟨rfl, rfl, rfl⟩
